import Mathlib

/-!
Verification development for the MiniWorld terrain-block generator
(`src/_init_.py`).  The Python source is shallowly embedded: strings are
`List Char`, Python `str.split` / `str.strip` / `int` / `float` / `round`
are modelled by executable Lean functions, the mapping-table and
coordinate parsers are translated line by line, the configuration
resolver (`ModelConfig.__init__`), the directional-face classifier
(`find_all_directional_faces`), the per-system material assignment
loops, and the template/block cache logic
(`create_template_for_position_id`, `create_block_from_template`)
become pure Lean functions, with filesystem existence modelled as a
list of existing paths and the Blender object database modelled as a
list of object names.
-/

namespace MiniWorld

/-- Python strings are modelled as lists of characters. -/
abbrev Str := List Char

/-- Whitespace characters recognised by the model of Python `str.strip`
and `\s` in regular expressions (ASCII whitespace). -/
def isPySpace (c : Char) : Bool :=
  c = ' ' || c = '\t' || c = '\n' || c = '\r' || c = '\x0b' || c = '\x0c'

/-- Model of Python `str.strip()`: drop leading and trailing whitespace. -/
def pyStrip (s : Str) : Str :=
  ((s.dropWhile isPySpace).reverse.dropWhile isPySpace).reverse

/-- Model of Python `str.split(sep)` with an explicit one-character
separator: splitting never drops empty fields and always returns at
least one field. -/
def pySplit (sep : Char) : Str → List Str
  | [] => [[]]
  | c :: rest =>
    match pySplit sep rest with
    | [] => [[]]
    | f :: fs => if c = sep then [] :: f :: fs else (c :: f) :: fs

/-- Single pass over the characters collecting the current
non-whitespace run (in reverse). -/
def wsSplitAux : Str → Str → List Str
  | [], cur => if cur = [] then [] else [cur.reverse]
  | c :: rest, cur =>
    if isPySpace c then
      (if cur = [] then wsSplitAux rest [] else cur.reverse :: wsSplitAux rest [])
    else wsSplitAux rest (c :: cur)

/-- Model of `re.split(r"\s+", s)` on a string with no leading or
trailing whitespace (the source always strips first): the maximal runs
of non-whitespace characters. -/
def wsSplit (s : Str) : List Str := wsSplitAux s []

/-- Digits of a numeral read most-significant first. -/
def digitsToNat (s : Str) : Nat :=
  s.foldl (fun a c => a * 10 + (c.toNat - '0'.toNat)) 0

/-- Model of Python `int(s)` on decimal literals: optional sign,
then a non-empty digit string (underscore grouping is not modelled). -/
def pyInt? (s : Str) : Option Int :=
  let t := pyStrip s
  match t with
  | '-' :: rest =>
    if rest ≠ [] ∧ rest.all Char.isDigit then some (-(digitsToNat rest : Int)) else none
  | '+' :: rest =>
    if rest ≠ [] ∧ rest.all Char.isDigit then some (digitsToNat rest : Int) else none
  | _ => if t ≠ [] ∧ t.all Char.isDigit then some (digitsToNat t : Int) else none

/-- Split at the first exponent marker of a float literal. -/
def splitOnExp : Str → Str × Option Str
  | [] => ([], none)
  | c :: rest =>
    if c = 'e' ∨ c = 'E' then ([], some rest)
    else
      match splitOnExp rest with
      | (a, b) => (c :: a, b)

/-- The exact value of a decimal literal, `man · 10 ^ exp10` (Python
floats are idealised as exact decimals; IEEE rounding of the literal
is not modelled). -/
structure Dec where
  man : Int
  exp10 : Int
deriving DecidableEq, Repr

/-- Mantissa of a float literal: `digits`, `digits.digits*` or
`.digits`, returned as the combined digit value together with the
number of fractional digits. -/
def parseMantissa (u : Str) : Option (Nat × Nat) :=
  let intPart := u.takeWhile Char.isDigit
  let rest := u.dropWhile Char.isDigit
  match rest with
  | [] => if intPart = [] then none else some (digitsToNat intPart, 0)
  | '.' :: frac =>
    if frac.all Char.isDigit ∧ (intPart ≠ [] ∨ frac ≠ []) then
      some (digitsToNat intPart * 10 ^ frac.length + digitsToNat frac, frac.length)
    else none
  | _ => none

/-- Exponent of a float literal: optional sign then digits (no strip). -/
def parseExp (u : Str) : Option Int :=
  match u with
  | '-' :: rest =>
    if rest ≠ [] ∧ rest.all Char.isDigit then some (-(digitsToNat rest : Int)) else none
  | '+' :: rest =>
    if rest ≠ [] ∧ rest.all Char.isDigit then some (digitsToNat rest : Int) else none
  | _ => if u ≠ [] ∧ u.all Char.isDigit then some (digitsToNat u : Int) else none

/-- Model of Python `float(s)` on decimal literals, as an exact
decimal: optional sign, decimal mantissa, optional exponent
(`inf`/`nan` and underscore grouping are not modelled). -/
def pyFloat? (s : Str) : Option Dec :=
  let t := pyStrip s
  let su : Int × Str :=
    match t with
    | '-' :: rest => (-1, rest)
    | '+' :: rest => (1, rest)
    | _ => (1, t)
  match splitOnExp su.2 with
  | (m, none) =>
    (parseMantissa m).map (fun q => ⟨su.1 * q.1, -(q.2 : Int)⟩)
  | (m, some e) =>
    match parseMantissa m, parseExp e with
    | some q, some ex => some ⟨su.1 * q.1, ex - q.2⟩
    | _, _ => none

/-- Model of Python `round(x)` on an exact decimal (banker's rounding:
nearest integer, ties to even), in integer arithmetic. -/
def pyRound (d : Dec) : Int :=
  if 0 ≤ d.exp10 then d.man * 10 ^ d.exp10.toNat
  else
    let den : Int := 10 ^ (-d.exp10).toNat
    let f := Int.fdiv d.man den
    let r := d.man - f * den
    if 2 * r < den then f
    else if den < 2 * r then f + 1
    else if f % 2 = 0 then f else f + 1

/-- One parsed grid placement (source dictionaries
`{'id': .., 'x': .., 'y': .., 'z': ..}`). -/
structure Coordinate where
  id : Int
  x : Int
  y : Int
  z : Int
deriving DecidableEq, Repr

/-- The body of the per-line loop of `parse_coordinate_string`
(src lines 575-642): strip, skip blank and `#` lines, then split on
commas when a comma is present, otherwise on whitespace runs when a
space character is present; 4 fields are `x,y,z,id`, 3 fields default
the id to 0; any parse failure or other field count skips the line. -/
def parseCoordLine (line : Str) : List Coordinate :=
  let l := pyStrip line
  if l = [] then []
  else if l.head? = some '#' then []
  else if ',' ∈ l then
    match (pySplit ',' l).map pyStrip with
    | [p0, p1, p2, p3] =>
      match pyFloat? p0, pyFloat? p1, pyFloat? p2, pyInt? p3 with
      | some qx, some qy, some qz, some bid =>
        [⟨bid, pyRound qx, pyRound qy, pyRound qz⟩]
      | _, _, _, _ => []
    | [p0, p1, p2] =>
      match pyFloat? p0, pyFloat? p1, pyFloat? p2 with
      | some qx, some qy, some qz => [⟨0, pyRound qx, pyRound qy, pyRound qz⟩]
      | _, _, _ => []
    | _ => []
  else if ' ' ∈ l then
    match wsSplit (pyStrip l) with
    | [p0, p1, p2, p3] =>
      match pyFloat? p0, pyFloat? p1, pyFloat? p2, pyInt? p3 with
      | some qx, some qy, some qz, some bid =>
        [⟨bid, pyRound qx, pyRound qy, pyRound qz⟩]
      | _, _, _, _ => []
    | [p0, p1, p2] =>
      match pyFloat? p0, pyFloat? p1, pyFloat? p2 with
      | some qx, some qy, some qz => [⟨0, pyRound qx, pyRound qy, pyRound qz⟩]
      | _, _, _ => []
    | _ => []
  else []

/-- `parse_coordinate_string` (src lines 569-645): strip the whole
text, split into lines, and process each line independently. -/
def parse_coordinate_string (s : Str) : List Coordinate :=
  (pySplit '\n' (pyStrip s)).flatMap parseCoordLine

/-- One mapping-table record (the dictionary built at src lines
692-702).  The source's main-texture-prefix and Z-texture-prefix
fields are named `main_texture_pfx` and `z_texture_pfx` here. -/
structure MappingRecord where
  position_id : Int
  blocktype : Str
  main_texture_pfx : Str
  submodel_name : Str
  z_texture_pfx : Str
  has_main_texture : Bool
  has_submodel : Bool
  has_z_texture : Bool
  all_parts : List Str
deriving DecidableEq, Repr

/-- Association-list lookup, modelling Python `dict.get`. -/
def alLookup {β : Type} : List (Int × β) → Int → Option β
  | [], _ => none
  | (k, v) :: rest, key => if key = k then some v else alLookup rest key

/-- Association-list update, modelling Python `dict[k] = v`
(overwrite in place, else append; last occurrence wins). -/
def alInsert {β : Type} : List (Int × β) → Int → β → List (Int × β)
  | [], k, v => [(k, v)]
  | (k0, v0) :: rest, k, v =>
    if k = k0 then (k0, v) :: rest else (k0, v0) :: alInsert rest k v

/-- The body of the per-line loop of `parse_mapping_table`
(src lines 666-712): strip, skip blank lines and lines starting with
`=`, reject lines with fewer than 46 comma-separated fields or a
non-integer field 0; field 6 is the blocktype, field 43 the main
texture prefix, field 44 both the submodel name and the Z-texture
prefix; if field 43 contains a comma it is split again and its second
part overrides the Z-texture prefix. -/
def fieldAt (parts : List Str) (i : Nat) : Str := parts.getD i []

def parseMappingLine (line : Str) : Option (Int × MappingRecord) :=
  let l := pyStrip line
  if l = [] then none
  else if l.head? = some '=' then none
  else
    let parts := pySplit ',' l
    if parts.length < 46 then none
    else
      match pyInt? (fieldAt parts 0) with
      | none => none
      | some pid =>
        -- `parts[i] if len(parts) > i else ''` is guarded indexing = `fieldAt`
        let blocktype := fieldAt parts 6
        let main0 := fieldAt parts 43
        let submodel := fieldAt parts 44
        let z0 := fieldAt parts 44
        let mz : Str × Str :=
          if ',' ∈ main0 then
            let sp := pySplit ',' main0
            (fieldAt sp 0, if 1 < sp.length then fieldAt sp 1 else z0)
          else (main0, z0)
        some (pid,
          ⟨pid, blocktype, mz.1, submodel, mz.2,
            !mz.1.isEmpty, !submodel.isEmpty, !mz.2.isEmpty, parts⟩)

/-- Accumulating one line into the mapping under construction. -/
def mappingStep (m : List (Int × MappingRecord)) (l : Str) :
    List (Int × MappingRecord) :=
  match parseMappingLine l with
  | none => m
  | some (k, v) => alInsert m k v

/-- `parse_mapping_table` (src lines 651-720) on the list of lines of
the mapping file (a missing file yields the empty line list and hence
the empty mapping): valid lines are inserted keyed by position id,
last occurrence winning. -/
def parse_mapping_table (lines : List Str) : List (Int × MappingRecord) :=
  lines.foldl mappingStep []

/-- Model of `os.path.join` for the relative path fragments the source
uses. -/
def osPathJoin (a b : Str) : Str := a ++ '/' :: b

/-- Model of Python `str(i)` on integers. -/
def strOfInt (i : Int) : Str := (toString i).data

/-- Material-system resolution (src lines 215-234).  The fourth branch
repeats a subset of the third branch's blocktype set. -/
def resolveMaterialSystem (blocktype main_texture_pfx : Str) : Str :=
  if blocktype = ("teamspawn").data then ("teamspawn_system").data
  else if blocktype ∈ [("soil").data, ("plantash").data] then ("soil_system").data
  else if blocktype ∈ [("minestone").data, ("stone").data, ("buildblueprint").data,
      ("regionreplicator").data, ("replicator").data, ("airwall").data,
      ("copier").data] then ("minestone_system").data
  else if blocktype ∈ [("replicator").data, ("regionreplicator").data,
      ("airwall").data, ("copier").data] then
    (if main_texture_pfx ≠ [] then ("minestone_system").data
     else ("submodel_only").data)
  else ("default_system").data

/-- Submodel file search (src lines 289-318): probe
`{name}.obj`, `{name}_lod1.obj`, `{name}_lod0.obj` first in the id
folder, then in the `models` folder; first existing path wins. -/
def findSubmodelPath (fs : List Str) (models_base_path : Str) (pid : Int)
    (submodel_name : Str) : Option Str :=
  let id_folder := osPathJoin models_base_path (strOfInt pid)
  let possible_names : List Str :=
    [submodel_name ++ (".obj").data,
     submodel_name ++ ("_lod1.obj").data,
     submodel_name ++ ("_lod0.obj").data]
  match (possible_names.map (osPathJoin id_folder)).find? (fun p => p ∈ fs) with
  | some p => some p
  | none =>
    (possible_names.map
      (osPathJoin (osPathJoin models_base_path (("models").data)))).find?
      (fun p => p ∈ fs)

/-- The resolved per-id configuration (the attributes set by
`ModelConfig.__init__`). -/
structure ModelConfig where
  position_id : Int
  blocktype : Str
  main_texture_pfx : Str
  submodel_name : Str
  z_texture_pfx : Str
  material_system : Str
  main_model_path : Str
  submodel_path : Option Str
  need_main_model : Bool
deriving DecidableEq, Repr

/-- `ModelConfig.__init__` (src lines 188-320) as a pure function of
the mapping record, the two filesystem roots and the set of existing
files: resolves the material system, the main-model path, the
main-model requirement flag (teamspawn forces a main model and clears
the submodel fields), and probes for the submodel file. -/
def mkModelConfig (position_id : Int) (mapping_data : Option MappingRecord)
    (_texture_base_path models_base_path : Str) (fs : List Str) : ModelConfig :=
  let blocktype := match mapping_data with
    | some m => m.blocktype
    | none => []
  let main_texture_pfx := match mapping_data with
    | some m => m.main_texture_pfx
    | none => []
  let submodel_name0 := match mapping_data with
    | some m => m.submodel_name
    | none => []
  let z_texture_pfx := match mapping_data with
    | some m => m.z_texture_pfx
    | none => []
  let material_system := resolveMaterialSystem blocktype main_texture_pfx
  let main_model_path :=
    if blocktype = ("teamspawn").data then
      osPathJoin (osPathJoin models_base_path (strOfInt position_id))
        (("teamspawn.obj").data)
    else
      osPathJoin (osPathJoin models_base_path (("models").data)) (("block.obj").data)
  -- src line 245: teamspawn clears the submodel name inside the path branch
  let submodel_name1 := if blocktype = ("teamspawn").data then [] else submodel_name0
  -- src lines 256-274: main-model requirement from submodel name and texture
  let need1 :=
    if submodel_name1 ≠ [] then
      (if main_texture_pfx = [] then false else true)
    else
      (if main_texture_pfx ≠ [] then true else false)
  -- src lines 277-279: submodel-only systems never need the main model
  let need2 := if material_system = ("submodel_only").data then false else need1
  -- src lines 282-286: teamspawn forces the main model and no submodel
  let need3 := if blocktype = ("teamspawn").data then true else need2
  let submodel_name2 := if blocktype = ("teamspawn").data then [] else submodel_name1
  -- src lines 289-318: submodel lookup, skipped entirely for teamspawn
  let submodel_path :=
    if submodel_name2 ≠ [] ∧ blocktype ≠ ("teamspawn").data then
      findSubmodelPath fs models_base_path position_id submodel_name2
    else none
  ⟨position_id, blocktype, main_texture_pfx, submodel_name2, z_texture_pfx,
    material_system, main_model_path, submodel_path, need3⟩

/-- `ModelConfig.has_main_model` (src lines 322-328). -/
def has_main_model (cfg : ModelConfig) (fs : List Str) : Bool :=
  cfg.need_main_model && decide (cfg.main_model_path ∈ fs)

/-- `ModelConfig.has_submodel` (src lines 330-335). -/
def has_submodel (cfg : ModelConfig) (fs : List Str) : Bool :=
  if cfg.blocktype = ("teamspawn").data then false
  else
    match cfg.submodel_path with
    | some p => decide (p ∈ fs)
    | none => false

/-- A polygon normal.  Components are exact rationals standing for the
value of `normal_normalized` in `find_all_directional_faces` (src lines
891-896): the host library's floating-point normalization — a zero
normal passes through unnormalized — happens outside the embedded
code, so the classifier below consumes the already-normalized normals. -/
structure Vec3 where
  x : ℚ
  y : ℚ
  z : ℚ
deriving DecidableEq, Repr

/-- The `+X` face test (src line 899). -/
def PosXTest (n : Vec3) : Prop := 7/10 < n.x ∧ |n.y| < 3/10 ∧ |n.z| < 3/10

/-- The `-X` face test (src line 902). -/
def NegXTest (n : Vec3) : Prop := n.x < -(7/10) ∧ |n.y| < 3/10 ∧ |n.z| < 3/10

/-- The `+Y` face test (src line 905). -/
def PosYTest (n : Vec3) : Prop := 7/10 < n.y ∧ |n.x| < 3/10 ∧ |n.z| < 3/10

/-- The `-Y` face test (src line 908). -/
def NegYTest (n : Vec3) : Prop := n.y < -(7/10) ∧ |n.x| < 3/10 ∧ |n.z| < 3/10

/-- The `+Z` face test (src line 911). -/
def PosZTest (n : Vec3) : Prop := 7/10 < n.z ∧ |n.x| < 3/10 ∧ |n.y| < 3/10

/-- The `-Z` face test (src line 914). -/
def NegZTest (n : Vec3) : Prop := n.z < -(7/10) ∧ |n.x| < 3/10 ∧ |n.y| < 3/10

instance (n : Vec3) : Decidable (PosXTest n) := by unfold PosXTest; infer_instance
instance (n : Vec3) : Decidable (NegXTest n) := by unfold NegXTest; infer_instance
instance (n : Vec3) : Decidable (PosYTest n) := by unfold PosYTest; infer_instance
instance (n : Vec3) : Decidable (NegYTest n) := by unfold NegYTest; infer_instance
instance (n : Vec3) : Decidable (PosZTest n) := by unfold PosZTest; infer_instance
instance (n : Vec3) : Decidable (NegZTest n) := by unfold NegZTest; infer_instance

/-- A polygon that satisfies none of the six directional tests. -/
def Unclassified (n : Vec3) : Prop :=
  ¬PosXTest n ∧ ¬NegXTest n ∧ ¬PosYTest n ∧ ¬NegYTest n ∧ ¬PosZTest n ∧ ¬NegZTest n

instance (n : Vec3) : Decidable (Unclassified n) := by
  unfold Unclassified; infer_instance

/-- The six directional index buckets returned by
`find_all_directional_faces`. -/
structure FaceBuckets where
  xF : List Nat
  negXF : List Nat
  yF : List Nat
  negYF : List Nat
  zF : List Nat
  negZF : List Nat
deriving DecidableEq, Repr

/-- The polygon loop of `find_all_directional_faces` (src lines
891-915), carrying the index of the current polygon: each polygon is
routed by the if/elif chain of the six directional tests, or dropped. -/
def classifyFrom (i : Nat) : List Vec3 → FaceBuckets
  | [] => ⟨[], [], [], [], [], []⟩
  | n :: rest =>
    let b := classifyFrom (i + 1) rest
    if PosXTest n then { b with xF := i :: b.xF }
    else if NegXTest n then { b with negXF := i :: b.negXF }
    else if PosYTest n then { b with yF := i :: b.yF }
    else if NegYTest n then { b with negYF := i :: b.negYF }
    else if PosZTest n then { b with zF := i :: b.zF }
    else if NegZTest n then { b with negZF := i :: b.negZF }
    else b

/-- `find_all_directional_faces` (src lines 877-917) on the list of
normalized polygon normals. -/
def find_all_directional_faces (normals : List Vec3) : FaceBuckets :=
  classifyFrom 0 normals

/-- Indices (offset by `i`) of the list entries satisfying `C`; the
reference shape each bucket of `classifyFrom` is proved equal to. -/
def selectIdx (C : Vec3 → Prop) [DecidablePred C] (i : Nat) : List Vec3 → List Nat
  | [] => []
  | n :: rest =>
    if C n then i :: selectIdx C (i + 1) rest else selectIdx C (i + 1) rest

/-- Condition under which the if/elif chain reaches the `-X` branch. -/
def ElifNegX (n : Vec3) : Prop := ¬PosXTest n ∧ NegXTest n

/-- Condition under which the if/elif chain reaches the `+Y` branch. -/
def ElifPosY (n : Vec3) : Prop := ¬PosXTest n ∧ ¬NegXTest n ∧ PosYTest n

/-- Condition under which the if/elif chain reaches the `-Y` branch. -/
def ElifNegY (n : Vec3) : Prop :=
  ¬PosXTest n ∧ ¬NegXTest n ∧ ¬PosYTest n ∧ NegYTest n

/-- Condition under which the if/elif chain reaches the `+Z` branch. -/
def ElifPosZ (n : Vec3) : Prop :=
  ¬PosXTest n ∧ ¬NegXTest n ∧ ¬PosYTest n ∧ ¬NegYTest n ∧ PosZTest n

/-- Condition under which the if/elif chain reaches the `-Z` branch. -/
def ElifNegZ (n : Vec3) : Prop :=
  ¬PosXTest n ∧ ¬NegXTest n ∧ ¬PosYTest n ∧ ¬NegYTest n ∧ ¬PosZTest n ∧ NegZTest n

instance (n : Vec3) : Decidable (ElifNegX n) := by unfold ElifNegX; infer_instance
instance (n : Vec3) : Decidable (ElifPosY n) := by unfold ElifPosY; infer_instance
instance (n : Vec3) : Decidable (ElifNegY n) := by unfold ElifNegY; infer_instance
instance (n : Vec3) : Decidable (ElifPosZ n) := by unfold ElifPosZ; infer_instance
instance (n : Vec3) : Decidable (ElifNegZ n) := by unfold ElifNegZ; infer_instance

/-- A mesh polygon: its (normalized) normal and its current material
index (`poly.material_index`). -/
structure Polygon where
  normal : Vec3
  matIndex : Nat
deriving DecidableEq, Repr

/-- `get_material_name_for_face` (src lines 1420-1422). -/
def faceMatName (pid : Int) (face_type : Str) : Str :=
  ("BlockMat_").data ++ face_type.map Char.toUpper ++ ('_' :: strOfInt pid)

/-- `get_default_material_name` (src lines 1431-1433). -/
def defaultMatName (pid : Int) : Str := ("BlockMat_Default_").data ++ strOfInt pid

/-- Material index chosen by the default-system assignment loop
(src lines 1980-1992): slot 0/1/2 for the X/Y/Z buckets, slot 3
otherwise. -/
def defaultAssignIdx (B : FaceBuckets) (i : Nat) : Nat :=
  if i ∈ B.xF ∨ i ∈ B.negXF then 0
  else if i ∈ B.yF ∨ i ∈ B.negYF then 1
  else if i ∈ B.zF ∨ i ∈ B.negZF then 2
  else 3

/-- The default-system assignment loop over the polygons, starting at
polygon index `i`. -/
def assignDefaultFrom (B : FaceBuckets) (i : Nat) : List Polygon → List Polygon
  | [] => []
  | p :: rest =>
    { p with matIndex := defaultAssignIdx B i } :: assignDefaultFrom B (i + 1) rest

/-- `apply_default_material_system` (src lines 1926-2002) as a pure
function of the position id, the texture lookup
(`model_config.get_texture_path`, a filesystem probe treated as a
parameter) and the mesh polygons; returns the object's material list
and the updated polygons.  Material creation
(`create_or_get_face_material`) always succeeds and is represented by
the material name; `apply_main_model_materials` (src line 1662) has
already cleared the object's material list. -/
def apply_default_material_system (pid : Int) (getTex : Str → Option Str)
    (polys : List Polygon) : List Str × List Polygon :=
  let xT := getTex (("x").data)
  let yT := getTex (("y").data)
  let zT := getTex (("z").data)
  if xT = none ∧ yT = none ∧ zT = none then
    ([defaultMatName pid], polys.map (fun p => { p with matIndex := 0 }))
  else
    let mats := [faceMatName pid (("x").data), faceMatName pid (("y").data),
      faceMatName pid (("z").data), defaultMatName pid]
    let B := find_all_directional_faces (polys.map Polygon.normal)
    (mats, assignDefaultFrom B 0 polys)

/-- Material index chosen by the minestone-system assignment loop
(src lines 1889-1914): each directional bucket uses its own slot when
present, fires the `default` slot when that is present, and otherwise
leaves the polygon's material index untouched. -/
def minestoneAssignIdx (B : FaceBuckets) (ix iy iz idef : Option Nat)
    (i old : Nat) : Nat :=
  if i ∈ B.xF ∨ i ∈ B.negXF then
    (match ix with
     | some v => v
     | none => match idef with | some v => v | none => old)
  else if i ∈ B.yF ∨ i ∈ B.negYF then
    (match iy with
     | some v => v
     | none => match idef with | some v => v | none => old)
  else if i ∈ B.zF ∨ i ∈ B.negZF then
    (match iz with
     | some v => v
     | none => match idef with | some v => v | none => old)
  else
    (match idef with | some v => v | none => old)

/-- The minestone-system assignment loop over the polygons, starting
at polygon index `i`. -/
def assignMinestoneFrom (B : FaceBuckets) (ix iy iz idef : Option Nat) (i : Nat) :
    List Polygon → List Polygon
  | [] => []
  | p :: rest =>
    { p with matIndex := minestoneAssignIdx B ix iy iz idef i p.matIndex } ::
      assignMinestoneFrom B ix iy iz idef (i + 1) rest

/-- `apply_minestone_material_system` (src lines 1819-1924) as a pure
function (same conventions as `apply_default_material_system`): if no
directional texture resolves every polygon gets the single default
material, otherwise one material per resolved face is appended, the
`default` slot is registered only when no face material exists (which
cannot happen on this branch), and the loop assigns slots per bucket. -/
def apply_minestone_material_system (pid : Int) (getTex : Str → Option Str)
    (polys : List Polygon) : List Str × List Polygon :=
  let xT := getTex (("x").data)
  let yT := getTex (("y").data)
  let zT := getTex (("z").data)
  if xT = none ∧ yT = none ∧ zT = none then
    ([defaultMatName pid], polys.map (fun p => { p with matIndex := 0 }))
  else
    let mats :=
      (if xT.isSome then [faceMatName pid (("x").data)] else []) ++
      (if yT.isSome then [faceMatName pid (("y").data)] else []) ++
      (if zT.isSome then [faceMatName pid (("z").data)] else [])
    let ix : Option Nat := if xT.isSome then some 0 else none
    let iy : Option Nat :=
      if yT.isSome then some (if xT.isSome then 1 else 0) else none
    let iz : Option Nat :=
      if zT.isSome then
        some ((if xT.isSome then 1 else 0) + (if yT.isSome then 1 else 0))
      else none
    let mats' := if ix = none ∧ iy = none ∧ iz = none
      then mats ++ [defaultMatName pid] else mats
    let idef : Option Nat := if ix = none ∧ iy = none ∧ iz = none
      then some 0 else none
    let B := find_all_directional_faces (polys.map Polygon.normal)
    (mats', assignMinestoneFrom B ix iy iz idef 0 polys)

/-- Material index chosen by the soil-system assignment loop
(src lines 1783-1808); `none` models the `KeyError` raised by
`material_indices['default']` when that key is absent. -/
def soilAssignIdx (B : FaceBuckets) (imain iz idef : Option Nat)
    (i _old : Nat) : Option Nat :=
  if i ∈ B.zF then
    (match iz with
     | some v => some v
     | none =>
       match imain with
       | some v => some v
       | none => match idef with | some v => some v | none => none)
  else if i ∈ B.negZF then
    (match imain with
     | some v => some v
     | none => match idef with | some v => some v | none => none)
  else
    (match imain with
     | some v => some v
     | none => match idef with | some v => some v | none => none)

/-- The soil-system assignment loop over the polygons, starting at
polygon index `i`; `none` when a `KeyError` escapes the loop. -/
def assignSoilFrom (B : FaceBuckets) (imain iz idef : Option Nat) (i : Nat) :
    List Polygon → Option (List Polygon)
  | [] => some []
  | p :: rest =>
    match soilAssignIdx B imain iz idef i p.matIndex with
    | none => none
    | some v =>
      (assignSoilFrom B imain iz idef (i + 1) rest).map
        (fun ps => { p with matIndex := v } :: ps)

/-- `apply_soil_material_system` (src lines 1727-1817) as a pure
function (same conventions as `apply_default_material_system`): the
main texture is the `x` probe, the Z texture falls back to the main
texture, the `+Z` bucket uses the Z slot, every other polygon uses the
main slot, and the `default` slot exists only when neither resolves;
`none` models a `KeyError` escaping the loop. -/
def apply_soil_material_system (pid : Int) (getTex : Str → Option Str)
    (polys : List Polygon) : Option (List Str × List Polygon) :=
  let mainT := getTex (("x").data)
  let zT0 := getTex (("z").data)
  let zT := if zT0 = none ∧ mainT ≠ none then mainT else zT0
  let mats :=
    (if mainT.isSome then [faceMatName pid (("x").data)] else []) ++
    (if zT.isSome then [faceMatName pid (("z").data)] else []) ++
    (if mainT.isSome ∨ zT.isSome then [] else [defaultMatName pid])
  let imain : Option Nat := if mainT.isSome then some 0 else none
  let iz : Option Nat :=
    if zT.isSome then some (if mainT.isSome then 1 else 0) else none
  let idef : Option Nat :=
    if mainT.isSome ∨ zT.isSome then none else some 0
  let B := find_all_directional_faces (polys.map Polygon.normal)
  (assignSoilFrom B imain iz idef 0 polys).map (fun ps => (mats, ps))

/-- Pure form of the soil assignment when the main slot is present:
the `+Z` bucket takes the Z slot if any, everything else the main
slot `m`. -/
def soilAssignPure (B : FaceBuckets) (iz : Option Nat) (m : Nat) (i : Nat) :
    List Polygon → List Polygon
  | [] => []
  | p :: rest =>
    { p with matIndex := if i ∈ B.zF then iz.getD m else m } ::
      soilAssignPure B iz m (i + 1) rest

/-- `_{pid}_{x}_{y}_{z}` naming suffix shared by block containers and
their children. -/
def gridSuffix (pid x y z : Int) : Str :=
  strOfInt pid ++ '_' :: strOfInt x ++ '_' :: strOfInt y ++ '_' :: strOfInt z

/-- `f"Block_{position_id}_{x}_{y}_{z}"` (src line 2358). -/
def blockName (pid x y z : Int) : Str := ("Block_").data ++ gridSuffix pid x y z

/-- A cached template: the container object's name and the names of
its child objects (main model and/or submodel). -/
structure Template where
  name : Str
  children : List Str
deriving DecidableEq, Repr

/-- The mutable state the template/placement engine acts on: the set
of existing files, the Blender object database (`bpy.data.objects`,
by name; transforms are modelled by the pure placement functions
below), the number of asset loads performed, and the manager caches
(`_templates`, `_model_configs`, `_mapping_table`). -/
structure SysState where
  fs : List Str
  objects : List Str
  loadCount : Nat
  templates : List (Int × Template)
  modelConfigs : List (Int × ModelConfig)
  mappingTable : Option (List (Int × MappingRecord))
deriving DecidableEq, Repr

/-- `load_and_setup_model` (src lines 2061-2203) at the collaborator
boundary: importing succeeds exactly when the file exists (src lines
2078-2080 return `None` for a missing file); a successful import adds
one named object and counts one asset load.  Scaling and material
application on the loaded object are modelled by the pure functions
above and do not affect this state. -/
def load_and_setup_model (s : SysState) (model_path model_name : Str) :
    Option Str × SysState :=
  if model_path ∈ s.fs then
    (some model_name,
      { s with objects := model_name :: s.objects, loadCount := s.loadCount + 1 })
  else (none, s)

/-- `create_template_for_position_id` (src lines 2205-2351): return
the cached template if one exists; otherwise resolve and store the
model configuration, load the main model and/or submodel per its
flags, and cache a container template only when at least one child
was built. -/
def create_template_for_position_id (s : SysState) (position_id : Int)
    (texture_base_path models_base_path : Str) : Option Template × SysState :=
  match alLookup s.templates position_id with
  | some t => (some t, s)
  | none =>
    let mapping_data := match s.mappingTable with
      | some m => alLookup m position_id
      | none => none
    let cfg := mkModelConfig position_id mapping_data texture_base_path
      models_base_path s.fs
    let s1 := { s with modelConfigs := alInsert s.modelConfigs position_id cfg }
    let r2 : Option Str × SysState :=
      if has_main_model cfg s1.fs then
        load_and_setup_model s1 cfg.main_model_path
          (("BlockMain_").data ++ strOfInt position_id)
      else (none, s1)
    let r3 : Option Str × SysState :=
      if has_submodel cfg r2.2.fs then
        match cfg.submodel_path with
        | some p =>
          load_and_setup_model r2.2 p (("BlockSub_").data ++ strOfInt position_id)
        | none => (none, r2.2)
      else (none, r2.2)
    if r2.1.isSome ∨ r3.1.isSome then
      let tmpl : Template :=
        ⟨("BlockTemplate_").data ++ strOfInt position_id,
          (match r2.1 with | some nm => [nm] | none => []) ++
          (match r3.1 with | some nm => [nm] | none => [])⟩
      (some tmpl,
        { r3.2 with
          objects := tmpl.name :: r3.2.objects,
          templates := alInsert r3.2.templates position_id tmpl })
    else (none, r3.2)

/-- The configuration `create_template_for_position_id` resolves and
stores for an id before attempting the build. -/
def resolvedConfigOf (s : SysState) (position_id : Int)
    (texture_base_path models_base_path : Str) : ModelConfig :=
  mkModelConfig position_id
    (match s.mappingTable with
      | some m => alLookup m position_id
      | none => none)
    texture_base_path models_base_path s.fs

/-- Renaming of duplicated children (src lines 2465-2469). -/
def renamedChild (pid x y z : Int) (c : Str) : Str :=
  if (("BlockMain_").data).isPrefixOf c then
    ("BlockMain_").data ++ gridSuffix pid x y z
  else if (("BlockSub_").data).isPrefixOf c then
    ("BlockSub_").data ++ gridSuffix pid x y z
  else c

/-- `create_block_from_template` (src lines 2353-2508): if an object
named for the key already exists return it; otherwise require a
template with at least one child and duplicate it into a renamed
container plus renamed children.  The numeric transform written to the
new container is modelled by `get_world_coordinate_for_model` and
`blockRotationEuler` below; the spacing/orientation arguments do not
affect the tracked state. -/
def create_block_from_template (s : SysState) (position_id x y z : Int)
    (_base_block_size : ℚ) (_direction_mode : Str)
    (_use_model_center : Bool) : Option Str × SysState :=
  let block_name := blockName position_id x y z
  if block_name ∈ s.objects then (some block_name, s)
  else
    match alLookup s.templates position_id with
    | none => (none, s)
    | some tmpl =>
      if tmpl.children = [] then (none, s)
      else
        (some block_name,
          { s with
            objects := block_name ::
              tmpl.children.map (renamedChild position_id x y z) ++ s.objects })

/-- `get_world_coordinate_for_model` (src lines 809-835): adjacent
mode spaces by the model's own dimensions, otherwise by the base grid
size; center positioning lifts the world Z by half the model height.
(The `direction_mode` argument is unused in the source as well.) -/
def get_world_coordinate_for_model (grid_coord : Int × Int × Int)
    (base_block_size model_size_x model_size_y model_size_z : ℚ)
    (_direction_mode : Str) (use_model_center adjacent_mode : Bool) :
    ℚ × ℚ × ℚ :=
  let wx := if adjacent_mode then grid_coord.1 * model_size_x
    else grid_coord.1 * base_block_size
  let wy := if adjacent_mode then grid_coord.2.1 * model_size_y
    else grid_coord.2.1 * base_block_size
  let wz := if adjacent_mode then grid_coord.2.2 * model_size_z
    else grid_coord.2.2 * base_block_size
  (wx, wy, if use_model_center then wz + model_size_z / 2 else wz)

/-- `get_rotation_for_direction` (src lines 748-759). -/
noncomputable def get_rotation_for_direction (direction_mode : Str) : ℝ :=
  if direction_mode = ("EAST").data then 0
  else if direction_mode = ("SOUTH").data then Real.pi / 2
  else if direction_mode = ("WEST").data then Real.pi
  else if direction_mode = ("NORTH").data then 3 * Real.pi / 2
  else 0

/-- `get_direction_vector` (src lines 761-772): the four compass
directions as vectors in the horizontal XY plane. -/
def get_direction_vector (direction_mode : Str) : ℚ × ℚ × ℚ :=
  if direction_mode = ("EAST").data then (1, 0, 0)
  else if direction_mode = ("SOUTH").data then (0, -1, 0)
  else if direction_mode = ("WEST").data then (-1, 0, 0)
  else if direction_mode = ("NORTH").data then (0, 1, 0)
  else (1, 0, 0)

/-- The euler rotation triple written to a placed block container:
src line 2455 executes
`new_container.rotation_euler = (0.0, rotation_y, 0.0)` with
`rotation_y = get_rotation_for_direction(direction_mode)`
(src line 2403) — the angle is stored in the Y component of the
XYZ euler triple. -/
noncomputable def blockRotationEuler (direction_mode : Str) : ℝ × ℝ × ℝ :=
  (0, get_rotation_for_direction direction_mode, 0)

/-- The 46-field mapping line of the C8 scenario:
`7,,,,,,minestone,<36 empty fields>,hupo,hupo1,`. -/
def hupoLine : Str :=
  List.intercalate [','] ([("7").data] ++ List.replicate 5 ([] : Str) ++
    [("minestone").data] ++ List.replicate 36 ([] : Str) ++
    [("hupo").data, ("hupo1").data, ([] : Str)])

/-- A teamspawn mapping record with a populated submodel name. -/
def tsRec : MappingRecord :=
  ⟨3, ("teamspawn").data, ("tp").data, ("foo").data, [], true, true, false, []⟩

/-- A state holding one cached template (for id 2) and one placed
block object (for key `(1,0,0,0)`). -/
def s1w : SysState :=
  ⟨[], [blockName 1 0 0 0], 0, [(2, ⟨("T").data, [("c").data]⟩)], [], none⟩

/-- The empty state: no files, no objects, no caches, no mapping. -/
def s6fail : SysState := ⟨[], [], 0, [], [], none⟩

/-! ### Helper lemmas -/

theorem pySplit_ne_nil (sep : Char) (s : Str) : pySplit sep s ≠ [] := by
  cases s with
  | nil => simp [pySplit]
  | cons c rest =>
    unfold pySplit
    cases h : pySplit sep rest with
    | nil => simp
    | cons f fs => split_ifs <;> simp

theorem not_mem_of_mem_pySplit (sep : Char) :
    ∀ (s : Str) (f : Str), f ∈ pySplit sep s → sep ∉ f
  | [], f => by
    intro hf
    simp [pySplit] at hf
    simp [hf]
  | c :: rest, f => by
    intro hf
    have ih := not_mem_of_mem_pySplit sep rest
    unfold pySplit at hf
    cases h : pySplit sep rest with
    | nil => exact absurd h (pySplit_ne_nil sep rest)
    | cons f0 fs =>
      rw [h] at hf
      have hf' : f ∈ (if c = sep then [] :: f0 :: fs else (c :: f0) :: fs) := hf
      by_cases hc : c = sep
      · rw [if_pos hc] at hf'
        rcases List.mem_cons.mp hf' with rfl | hf''
        · simp
        · exact ih f (h ▸ hf'')
      · rw [if_neg hc] at hf'
        rcases List.mem_cons.mp hf' with rfl | hf''
        · intro hmem
          rcases List.mem_cons.mp hmem with rfl | hmem'
          · exact hc rfl
          · exact ih f0 (h ▸ List.mem_cons_self f0 fs) hmem'
        · exact ih f (h ▸ List.mem_cons.mpr (Or.inr hf''))

theorem not_mem_pySplit_getD (sep : Char) (s : Str) (i : Nat) :
    sep ∉ (pySplit sep s).getD i [] := by
  rw [List.getD_eq_getElem?_getD]
  cases h : (pySplit sep s)[i]? with
  | none => simp
  | some f =>
    simpa using not_mem_of_mem_pySplit sep s f (List.getElem?_mem h)

theorem alLookup_alInsert {β : Type} (m : List (Int × β)) (k : Int) (v : β)
    (key : Int) :
    alLookup (alInsert m k v) key = if key = k then some v else alLookup m key := by
  induction m with
  | nil => simp [alInsert, alLookup]
  | cons kv rest ih =>
    obtain ⟨k0, v0⟩ := kv
    simp only [alInsert]
    by_cases hk : k = k0
    · subst hk
      simp only [if_pos rfl, alLookup]
      by_cases h0 : key = k <;> simp [h0]
    · simp only [if_neg hk, alLookup, ih]
      by_cases h0 : key = k0
      · subst h0
        have hne : ¬key = k := fun h => hk h.symm
        simp [hne]
      · simp [h0]

/-! ### Mapping-table parser facts -/

theorem parseMappingLine_z_eq_submodel (line : Str) (k : Int)
    (rec : MappingRecord) (h : parseMappingLine line = some (k, rec)) :
    rec.z_texture_pfx = rec.submodel_name := by
  have hnc : ',' ∉ fieldAt (pySplit ',' (pyStrip line)) 43 :=
    not_mem_pySplit_getD ',' (pyStrip line) 43
  by_cases h1 : pyStrip line = []
  · simp [parseMappingLine, h1] at h
  by_cases h2 : (pyStrip line).head? = some '='
  · simp [parseMappingLine, h1, h2] at h
  by_cases h3 : (pySplit ',' (pyStrip line)).length < 46
  · simp [parseMappingLine, h1, h2, h3] at h
  simp only [parseMappingLine, if_neg h1, if_neg h2, if_neg h3, if_neg hnc] at h
  split at h
  · exact absurd h (by simp)
  · simp only [Option.some.injEq, Prod.mk.injEq] at h
    obtain ⟨-, hrec⟩ := h
    subst hrec
    rfl

theorem foldl_mappingStep_inv (lines : List Str) :
    ∀ (m : List (Int × MappingRecord)),
      (∀ k rec, alLookup m k = some rec → rec.z_texture_pfx = rec.submodel_name) →
      ∀ k rec, alLookup (lines.foldl mappingStep m) k = some rec →
        rec.z_texture_pfx = rec.submodel_name := by
  induction lines with
  | nil => intro m hm k rec h; exact hm k rec h
  | cons l rest ih =>
    intro m hm k rec h
    rw [List.foldl_cons] at h
    refine ih (mappingStep m l) ?_ k rec h
    intro k' rec' h'
    unfold mappingStep at h'
    cases hp : parseMappingLine l with
    | none => rw [hp] at h'; exact hm k' rec' h'
    | some kv =>
      obtain ⟨k0, v0⟩ := kv
      rw [hp] at h'
      rw [alLookup_alInsert] at h'
      split_ifs at h' with he
      · cases h'
        exact parseMappingLine_z_eq_submodel l k0 rec' hp
      · exact hm k' rec' h'

/-! ### Claim theorems for the mapping table -/

/-- C8: parsing a well-formed 46-field mapping line with position id
7, blocktype `minestone` at field 6, `hupo` at field 43 and `hupo1` at
field 44 yields a record whose main texture prefix is `hupo` and whose
Z-texture prefix is `hupo1`, and resolving that record yields the
minestone material system. -/
theorem c8_hupo_scenario :
    (alLookup (parse_mapping_table [hupoLine]) 7).map
        MappingRecord.main_texture_pfx = some (("hupo").data) ∧
    (alLookup (parse_mapping_table [hupoLine]) 7).map
        MappingRecord.z_texture_pfx = some (("hupo1").data) ∧
    (alLookup (parse_mapping_table [hupoLine]) 7).map
        (fun r => (mkModelConfig 7 (some r) [] [] []).material_system) =
      some (("minestone_system").data) := by
  decide

/-- C10: in every record produced by `parse_mapping_table`, the
Z-texture prefix equals the submodel name: both come from field 44,
and the branch that would override the Z-texture prefix from a second
comma-separated part of field 43 can never fire, because the fields of
a comma-split line cannot contain a comma. -/
theorem c10_z_eq_submodel (lines : List Str) (pid : Int) (rec : MappingRecord)
    (h : alLookup (parse_mapping_table lines) pid = some rec) :
    rec.z_texture_pfx = rec.submodel_name := by
  refine foldl_mappingStep_inv lines [] ?_ pid rec h
  intro k rec' h'
  simp [alLookup] at h'

/-- Witness for C10 at a concrete mapping file. -/
theorem c10_z_eq_submodel_witness :
    (alLookup (parse_mapping_table [hupoLine]) 7).map
        MappingRecord.z_texture_pfx =
    (alLookup (parse_mapping_table [hupoLine]) 7).map
        MappingRecord.submodel_name := by
  cases h : alLookup (parse_mapping_table [hupoLine]) 7 with
  | none => rfl
  | some rec => simp [c10_z_eq_submodel [hupoLine] 7 rec h]

/-! ### Strip idempotence -/

theorem dropWhile_head?_not (p : Char → Bool) :
    ∀ (l : Str) (a : Char), (l.dropWhile p).head? = some a → p a = false := by
  intro l
  induction l with
  | nil => simp
  | cons c rest ih =>
    intro a h
    by_cases hc : p c
    · rw [List.dropWhile_cons, if_pos hc] at h
      exact ih a h
    · rw [List.dropWhile_cons, if_neg hc] at h
      simp only [List.head?_cons, Option.some.injEq] at h
      subst h
      simpa using hc

theorem dropWhile_eq_self_of_head (p : Char → Bool) (l : Str)
    (h : ∀ a, l.head? = some a → p a = false) : l.dropWhile p = l := by
  cases l with
  | nil => rfl
  | cons c rest =>
    have := h c rfl
    simp [List.dropWhile_cons, this]

theorem getLast?_dropWhile (p : Char → Bool) :
    ∀ l : Str, l.dropWhile p ≠ [] → (l.dropWhile p).getLast? = l.getLast? := by
  intro l
  induction l with
  | nil => simp
  | cons c rest ih =>
    intro h
    by_cases hc : p c
    · rw [List.dropWhile_cons, if_pos hc] at h ⊢
      have hrest : rest ≠ [] := by
        intro he
        subst he
        simp at h
      obtain ⟨d, rest', rfl⟩ := List.exists_cons_of_ne_nil hrest
      rw [List.getLast?_cons_cons]
      exact ih h
    · rw [List.dropWhile_cons, if_neg hc]

theorem pyStrip_idem (s : Str) : pyStrip (pyStrip s) = pyStrip s := by
  unfold pyStrip
  set u := s.dropWhile isPySpace with hu
  set v := u.reverse.dropWhile isPySpace with hv
  have hA : v.reverse.dropWhile isPySpace = v.reverse := by
    refine dropWhile_eq_self_of_head _ _ ?_
    intro a ha
    rw [List.head?_reverse] at ha
    have hvne : v ≠ [] := by
      intro he
      rw [he] at ha
      simp at ha
    rw [hv, getLast?_dropWhile _ _ (hv ▸ hvne), List.getLast?_reverse] at ha
    exact dropWhile_head?_not _ _ _ (hu ▸ ha)
  rw [hA, List.reverse_reverse]
  have hB : v.dropWhile isPySpace = v := by
    refine dropWhile_eq_self_of_head _ _ ?_
    intro a ha
    exact dropWhile_head?_not _ _ _ (hv ▸ ha)
  rw [hB]

/-! ### Claim theorems for the coordinate parser -/

/-- C9 counterexample: the second line `2<tab>3<tab>1` is non-blank,
does not start with `#`, and has three whitespace-separated fields, so
by the claim it should parse (with default id 0) — but the code only
enters its whitespace branch when the line contains a space character,
so the tab-delimited line is skipped. -/
theorem c9_counterexample :
    parse_coordinate_string (("-4,0,9,1\n2\t3\t1\n").data) =
      [⟨1, -4, 0, 9⟩] ∧
    (⟨0, 2, 3, 1⟩ : Coordinate) ∉
      parse_coordinate_string (("-4,0,9,1\n2\t3\t1\n").data) := by
  decide

/-- C9 (amended): the scenario `-4,0,9,1\n2 3 1\n` parses to the two
claimed placements; a line with four (resp. three) comma-separated
numeric fields parses to `{id, x, y, z}` with the id taken from the
last field (resp. defaulting to 0) and coordinates rounded; the same
holds for whitespace-separated lines, but only when the line contains
a space character (tab-only delimited lines are skipped); malformed
lines yield no placement for that line only, the parse never aborts. -/
theorem c9_coordinate_parsing :
    (parse_coordinate_string (("-4,0,9,1\n2 3 1\n").data) =
      [⟨1, -4, 0, 9⟩, ⟨0, 2, 3, 1⟩]) ∧
    (∀ (line p0 p1 p2 p3 : Str) (qx qy qz : Dec) (bid : Int),
      (pyStrip line).head? ≠ some '#' →
      ',' ∈ pyStrip line →
      (pySplit ',' (pyStrip line)).map pyStrip = [p0, p1, p2, p3] →
      pyFloat? p0 = some qx → pyFloat? p1 = some qy → pyFloat? p2 = some qz →
      pyInt? p3 = some bid →
      parseCoordLine line = [⟨bid, pyRound qx, pyRound qy, pyRound qz⟩]) ∧
    (∀ (line p0 p1 p2 : Str) (qx qy qz : Dec),
      (pyStrip line).head? ≠ some '#' →
      ',' ∈ pyStrip line →
      (pySplit ',' (pyStrip line)).map pyStrip = [p0, p1, p2] →
      pyFloat? p0 = some qx → pyFloat? p1 = some qy → pyFloat? p2 = some qz →
      parseCoordLine line = [⟨0, pyRound qx, pyRound qy, pyRound qz⟩]) ∧
    (∀ (line p0 p1 p2 p3 : Str) (qx qy qz : Dec) (bid : Int),
      (pyStrip line).head? ≠ some '#' →
      ',' ∉ pyStrip line →
      ' ' ∈ pyStrip line →
      wsSplit (pyStrip line) = [p0, p1, p2, p3] →
      pyFloat? p0 = some qx → pyFloat? p1 = some qy → pyFloat? p2 = some qz →
      pyInt? p3 = some bid →
      parseCoordLine line = [⟨bid, pyRound qx, pyRound qy, pyRound qz⟩]) ∧
    (∀ (line p0 p1 p2 : Str) (qx qy qz : Dec),
      (pyStrip line).head? ≠ some '#' →
      ',' ∉ pyStrip line →
      ' ' ∈ pyStrip line →
      wsSplit (pyStrip line) = [p0, p1, p2] →
      pyFloat? p0 = some qx → pyFloat? p1 = some qy → pyFloat? p2 = some qz →
      parseCoordLine line = [⟨0, pyRound qx, pyRound qy, pyRound qz⟩]) ∧
    (∀ s : Str, parse_coordinate_string s =
      (pySplit '\n' (pyStrip s)).flatMap parseCoordLine) := by
  refine ⟨by decide, ?_, ?_, ?_, ?_, fun s => rfl⟩
  · intro line p0 p1 p2 p3 qx qy qz bid hhd hc hsplit hx hy hz hid
    have hne : pyStrip line ≠ [] := by
      intro h
      rw [h] at hc
      simp at hc
    simp only [parseCoordLine, if_neg hne, if_neg hhd, if_pos hc, hsplit,
      hx, hy, hz, hid]
  · intro line p0 p1 p2 qx qy qz hhd hc hsplit hx hy hz
    have hne : pyStrip line ≠ [] := by
      intro h
      rw [h] at hc
      simp at hc
    simp only [parseCoordLine, if_neg hne, if_neg hhd, if_pos hc, hsplit,
      hx, hy, hz]
  · intro line p0 p1 p2 p3 qx qy qz bid hhd hcn hsp hsplit hx hy hz hid
    have hne : pyStrip line ≠ [] := by
      intro h
      rw [h] at hsp
      simp at hsp
    have hsplit' : wsSplit (pyStrip (pyStrip line)) = [p0, p1, p2, p3] := by
      rw [pyStrip_idem]
      exact hsplit
    simp only [parseCoordLine, if_neg hne, if_neg hhd, if_neg hcn, if_pos hsp,
      hsplit', hx, hy, hz, hid]
  · intro line p0 p1 p2 qx qy qz hhd hcn hsp hsplit hx hy hz
    have hne : pyStrip line ≠ [] := by
      intro h
      rw [h] at hsp
      simp at hsp
    have hsplit' : wsSplit (pyStrip (pyStrip line)) = [p0, p1, p2] := by
      rw [pyStrip_idem]
      exact hsplit
    simp only [parseCoordLine, if_neg hne, if_neg hhd, if_neg hcn, if_pos hsp,
      hsplit', hx, hy, hz]

/-- Witness for C9 at two concrete lines, one per delimiter family. -/
theorem c9_coordinate_parsing_witness :
    parseCoordLine (("1,2,3,4").data) =
      [⟨4, pyRound ⟨1, 0⟩, pyRound ⟨2, 0⟩, pyRound ⟨3, 0⟩⟩] ∧
    parseCoordLine (("5 6 7").data) =
      [⟨0, pyRound ⟨5, 0⟩, pyRound ⟨6, 0⟩, pyRound ⟨7, 0⟩⟩] := by
  constructor
  · exact c9_coordinate_parsing.2.1 (("1,2,3,4").data) (("1").data) (("2").data)
      (("3").data) (("4").data) ⟨1, 0⟩ ⟨2, 0⟩ ⟨3, 0⟩ 4 (by decide) (by decide)
      (by decide) (by decide) (by decide) (by decide) (by decide)
  · exact c9_coordinate_parsing.2.2.2.2.1 (("5 6 7").data) (("5").data)
      (("6").data) (("7").data) ⟨5, 0⟩ ⟨6, 0⟩ ⟨7, 0⟩ (by decide) (by decide)
      (by decide) (by decide) (by decide) (by decide) (by decide)

/-! ### Claim theorems for the configuration resolver -/

theorem resolveMaterialSystem_table (bt p : Str) :
    resolveMaterialSystem bt p =
      (if bt = ("teamspawn").data then ("teamspawn_system").data
       else if bt ∈ [("soil").data, ("plantash").data] then ("soil_system").data
       else if bt ∈ [("minestone").data, ("stone").data, ("buildblueprint").data,
          ("regionreplicator").data, ("replicator").data, ("airwall").data,
          ("copier").data] then ("minestone_system").data
       else ("default_system").data) ∧
    resolveMaterialSystem bt p ≠ ("submodel_only").data := by
  unfold resolveMaterialSystem
  constructor
  · split_ifs with h1 h2 h3 h4 h5 <;> try rfl
    all_goals
      exfalso
      apply h3
      simp only [List.mem_cons, List.not_mem_nil, or_false] at h4 ⊢
      tauto
  · split_ifs with h1 h2 h3 h4 h5 <;>
      first
        | decide
        | (exfalso
           apply h3
           simp only [List.mem_cons, List.not_mem_nil, or_false] at h4 ⊢
           tauto)

/-- C2: for every mapping record, the resolved material system follows
the spec's decision table — `teamspawn` for blocktype `teamspawn`,
`soil` for `soil`/`plantash`, `minestone` for the seven-element
blocktype set, and `default` otherwise — and is never `submodel_only`:
the branch that would produce it repeats a subset of the minestone
branch's blocktypes and is unreachable. -/
theorem c2_material_system_decision_table (pid : Int) (rec : MappingRecord)
    (tex mod : Str) (fs : List Str) :
    (mkModelConfig pid (some rec) tex mod fs).material_system =
      (if rec.blocktype = ("teamspawn").data then ("teamspawn_system").data
       else if rec.blocktype ∈ [("soil").data, ("plantash").data] then
        ("soil_system").data
       else if rec.blocktype ∈ [("minestone").data, ("stone").data,
          ("buildblueprint").data, ("regionreplicator").data,
          ("replicator").data, ("airwall").data, ("copier").data] then
        ("minestone_system").data
       else ("default_system").data) ∧
    (mkModelConfig pid (some rec) tex mod fs).material_system ≠
      ("submodel_only").data := by
  have h : (mkModelConfig pid (some rec) tex mod fs).material_system =
      resolveMaterialSystem rec.blocktype rec.main_texture_pfx := rfl
  exact ⟨h.trans (resolveMaterialSystem_table _ _).1,
    h ▸ (resolveMaterialSystem_table rec.blocktype rec.main_texture_pfx).2⟩

/-- C3: a `teamspawn` record — even one carrying a non-empty submodel
name — resolves to a configuration that needs the main model, has an
empty submodel name, no submodel path (the lookup is skipped), and
main-model path `{models_root}/{position_id}/teamspawn.obj`. -/
theorem c3_teamspawn_invariant (pid : Int) (rec : MappingRecord)
    (tex mod : Str) (fs : List Str)
    (h : rec.blocktype = ("teamspawn").data) :
    (mkModelConfig pid (some rec) tex mod fs).need_main_model = true ∧
    (mkModelConfig pid (some rec) tex mod fs).submodel_name = [] ∧
    (mkModelConfig pid (some rec) tex mod fs).submodel_path = none ∧
    (mkModelConfig pid (some rec) tex mod fs).main_model_path =
      osPathJoin (osPathJoin mod (strOfInt pid)) (("teamspawn.obj").data) := by
  refine ⟨?_, ?_, ?_, ?_⟩ <;> simp [mkModelConfig, h]

/-- Witness for C3 at a concrete record with non-empty submodel name. -/
theorem c3_teamspawn_invariant_witness :
    ModelConfig.need_main_model
      (mkModelConfig 3 (some tsRec) (("tex").data) (("mod").data) []) = true ∧
    ModelConfig.submodel_name
      (mkModelConfig 3 (some tsRec) (("tex").data) (("mod").data) []) = [] ∧
    ModelConfig.submodel_path
      (mkModelConfig 3 (some tsRec) (("tex").data) (("mod").data) []) = none ∧
    ModelConfig.main_model_path
      (mkModelConfig 3 (some tsRec) (("tex").data) (("mod").data) []) =
      osPathJoin (osPathJoin (("mod").data) (strOfInt 3)) (("teamspawn.obj").data) ∧
    tsRec.submodel_name ≠ [] := by
  have h := c3_teamspawn_invariant 3 tsRec (("tex").data) (("mod").data) []
    (by decide)
  exact ⟨h.1, h.2.1, h.2.2.1, h.2.2.2, by decide⟩

/-! ### Classifier lemmas -/

theorem mem_selectIdx {C : Vec3 → Prop} [DecidablePred C] (ns : List Vec3) :
    ∀ (i j : Nat),
      j ∈ selectIdx C i ns ↔ ∃ k n, ns[k]? = some n ∧ C n ∧ j = i + k := by
  induction ns with
  | nil => intro i j; simp [selectIdx]
  | cons n rest ih =>
    intro i j
    simp only [selectIdx]
    by_cases h : C n
    · rw [if_pos h]
      simp only [List.mem_cons]
      rw [ih]
      constructor
      · rintro (rfl | ⟨k, m, hk, hC, rfl⟩)
        · exact ⟨0, n, by simp, h, by omega⟩
        · exact ⟨k + 1, m, by simpa using hk, hC, by omega⟩
      · rintro ⟨k, m, hk, hC, rfl⟩
        cases k with
        | zero => left; omega
        | succ k' =>
          right
          exact ⟨k', m, by simpa using hk, hC, by omega⟩
    · rw [if_neg h]
      rw [ih]
      constructor
      · rintro ⟨k, m, hk, hC, rfl⟩
        exact ⟨k + 1, m, by simpa using hk, hC, by omega⟩
      · rintro ⟨k, m, hk, hC, rfl⟩
        cases k with
        | zero =>
          simp only [List.getElem?_cons_zero, Option.some.injEq] at hk
          subst hk
          exact absurd hC h
        | succ k' =>
          exact ⟨k', m, by simpa using hk, hC, by omega⟩

theorem mem_selectIdx_zero {C : Vec3 → Prop} [DecidablePred C] (ns : List Vec3)
    (j : Nat) : j ∈ selectIdx C 0 ns ↔ ∃ n, ns[j]? = some n ∧ C n := by
  rw [mem_selectIdx]
  constructor
  · rintro ⟨k, n, hk, hC, rfl⟩
    simp only [Nat.zero_add]
    exact ⟨n, hk, hC⟩
  · rintro ⟨n, hj, hC⟩
    exact ⟨j, n, hj, hC, (Nat.zero_add j).symm⟩

theorem classifyFrom_eq (ns : List Vec3) : ∀ i, classifyFrom i ns =
    ⟨selectIdx PosXTest i ns, selectIdx ElifNegX i ns, selectIdx ElifPosY i ns,
      selectIdx ElifNegY i ns, selectIdx ElifPosZ i ns,
      selectIdx ElifNegZ i ns⟩ := by
  induction ns with
  | nil => intro i; rfl
  | cons n rest ih =>
    intro i
    simp only [classifyFrom, selectIdx, ih]
    by_cases h1 : PosXTest n
    · have e2 : ¬ElifNegX n := fun h => h.1 h1
      have e3 : ¬ElifPosY n := fun h => h.1 h1
      have e4 : ¬ElifNegY n := fun h => h.1 h1
      have e5 : ¬ElifPosZ n := fun h => h.1 h1
      have e6 : ¬ElifNegZ n := fun h => h.1 h1
      simp [h1, e2, e3, e4, e5, e6]
    by_cases h2 : NegXTest n
    · have e2 : ElifNegX n := ⟨h1, h2⟩
      have e3 : ¬ElifPosY n := fun h => h.2.1 h2
      have e4 : ¬ElifNegY n := fun h => h.2.1 h2
      have e5 : ¬ElifPosZ n := fun h => h.2.1 h2
      have e6 : ¬ElifNegZ n := fun h => h.2.1 h2
      simp [h1, h2, e2, e3, e4, e5, e6]
    by_cases h3 : PosYTest n
    · have e2 : ¬ElifNegX n := fun h => h2 h.2
      have e3 : ElifPosY n := ⟨h1, h2, h3⟩
      have e4 : ¬ElifNegY n := fun h => h.2.2.1 h3
      have e5 : ¬ElifPosZ n := fun h => h.2.2.1 h3
      have e6 : ¬ElifNegZ n := fun h => h.2.2.1 h3
      simp [h1, h2, h3, e2, e3, e4, e5, e6]
    by_cases h4 : NegYTest n
    · have e2 : ¬ElifNegX n := fun h => h2 h.2
      have e3 : ¬ElifPosY n := fun h => h3 h.2.2
      have e4 : ElifNegY n := ⟨h1, h2, h3, h4⟩
      have e5 : ¬ElifPosZ n := fun h => h.2.2.2.1 h4
      have e6 : ¬ElifNegZ n := fun h => h.2.2.2.1 h4
      simp [h1, h2, h3, h4, e2, e3, e4, e5, e6]
    by_cases h5 : PosZTest n
    · have e2 : ¬ElifNegX n := fun h => h2 h.2
      have e3 : ¬ElifPosY n := fun h => h3 h.2.2
      have e4 : ¬ElifNegY n := fun h => h4 h.2.2.2
      have e5 : ElifPosZ n := ⟨h1, h2, h3, h4, h5⟩
      have e6 : ¬ElifNegZ n := fun h => h.2.2.2.2.1 h5
      simp [h1, h2, h3, h4, h5, e2, e3, e4, e5, e6]
    by_cases h6 : NegZTest n
    · have e2 : ¬ElifNegX n := fun h => h2 h.2
      have e3 : ¬ElifPosY n := fun h => h3 h.2.2
      have e4 : ¬ElifNegY n := fun h => h4 h.2.2.2
      have e5 : ¬ElifPosZ n := fun h => h5 h.2.2.2.2
      have e6 : ElifNegZ n := ⟨h1, h2, h3, h4, h5, h6⟩
      simp [h1, h2, h3, h4, h5, h6, e2, e3, e4, e5, e6]
    · have e2 : ¬ElifNegX n := fun h => h2 h.2
      have e3 : ¬ElifPosY n := fun h => h3 h.2.2
      have e4 : ¬ElifNegY n := fun h => h4 h.2.2.2
      have e5 : ¬ElifPosZ n := fun h => h5 h.2.2.2.2
      have e6 : ¬ElifNegZ n := fun h => h6 h.2.2.2.2.2
      simp [h1, h2, h3, h4, h5, h6, e2, e3, e4, e5, e6]

theorem elifNegX_iff (n : Vec3) : ElifNegX n ↔ NegXTest n := by
  unfold ElifNegX NegXTest PosXTest
  constructor
  · exact fun h => h.2
  · intro h
    obtain ⟨hx, hy, hz⟩ := h
    exact ⟨fun hp => by linarith [hp.1], hx, hy, hz⟩

theorem elifPosY_iff (n : Vec3) : ElifPosY n ↔ PosYTest n := by
  unfold ElifPosY PosYTest PosXTest NegXTest
  constructor
  · exact fun h => h.2.2
  · intro h
    obtain ⟨hy, hx, hz⟩ := h
    have hx' := abs_lt.1 hx
    exact ⟨fun hp => by linarith [hp.1, hx'.1, hx'.2],
      fun hn => by linarith [hn.1, hx'.1, hx'.2], hy, hx, hz⟩

theorem elifNegY_iff (n : Vec3) : ElifNegY n ↔ NegYTest n := by
  unfold ElifNegY NegYTest PosYTest PosXTest NegXTest
  constructor
  · exact fun h => h.2.2.2
  · intro h
    obtain ⟨hy, hx, hz⟩ := h
    have hx' := abs_lt.1 hx
    exact ⟨fun hp => by linarith [hp.1, hx'.1, hx'.2],
      fun hn => by linarith [hn.1, hx'.1, hx'.2],
      fun hp => by linarith [hp.1], hy, hx, hz⟩

theorem elifPosZ_iff (n : Vec3) : ElifPosZ n ↔ PosZTest n := by
  unfold ElifPosZ PosZTest PosYTest NegYTest PosXTest NegXTest
  constructor
  · exact fun h => h.2.2.2.2
  · intro h
    obtain ⟨hz, hx, hy⟩ := h
    have hx' := abs_lt.1 hx
    have hy' := abs_lt.1 hy
    exact ⟨fun hp => by linarith [hp.1, hx'.1, hx'.2],
      fun hn => by linarith [hn.1, hx'.1, hx'.2],
      fun hp => by linarith [hp.1, hy'.1, hy'.2],
      fun hn => by linarith [hn.1, hy'.1, hy'.2], hz, hx, hy⟩

theorem elifNegZ_iff (n : Vec3) : ElifNegZ n ↔ NegZTest n := by
  unfold ElifNegZ NegZTest PosZTest PosYTest NegYTest PosXTest NegXTest
  constructor
  · exact fun h => h.2.2.2.2.2
  · intro h
    obtain ⟨hz, hx, hy⟩ := h
    have hx' := abs_lt.1 hx
    have hy' := abs_lt.1 hy
    exact ⟨fun hp => by linarith [hp.1, hx'.1, hx'.2],
      fun hn => by linarith [hn.1, hx'.1, hx'.2],
      fun hp => by linarith [hp.1, hy'.1, hy'.2],
      fun hn => by linarith [hn.1, hy'.1, hy'.2],
      fun hp => by linarith [hp.1], hz, hx, hy⟩

theorem selectIdx_disjoint {C D : Vec3 → Prop} [DecidablePred C]
    [DecidablePred D] (h : ∀ n, C n → D n → False) (ns : List Vec3) :
    List.Disjoint (selectIdx C 0 ns) (selectIdx D 0 ns) := by
  intro j hj1 hj2
  rw [mem_selectIdx_zero] at hj1 hj2
  obtain ⟨n, hn, hC⟩ := hj1
  obtain ⟨n', hn', hD⟩ := hj2
  rw [hn] at hn'
  cases hn'
  exact h n hC hD

/-- C4: `find_all_directional_faces` places a polygon in the `+X`,
`-X`, `+Y`, `-Y`, `+Z` or `-Z` bucket exactly when its normalized
normal has the matching signed axis component beyond `0.7` and both
other components below `0.3` in absolute value; the six buckets are
pairwise disjoint; and a polygon satisfying none of the six tests
appears in no bucket. -/
theorem c4_face_classification (ns : List Vec3) :
    (∀ j,
      (j ∈ (find_all_directional_faces ns).xF ↔
        ∃ n, ns[j]? = some n ∧ PosXTest n) ∧
      (j ∈ (find_all_directional_faces ns).negXF ↔
        ∃ n, ns[j]? = some n ∧ NegXTest n) ∧
      (j ∈ (find_all_directional_faces ns).yF ↔
        ∃ n, ns[j]? = some n ∧ PosYTest n) ∧
      (j ∈ (find_all_directional_faces ns).negYF ↔
        ∃ n, ns[j]? = some n ∧ NegYTest n) ∧
      (j ∈ (find_all_directional_faces ns).zF ↔
        ∃ n, ns[j]? = some n ∧ PosZTest n) ∧
      (j ∈ (find_all_directional_faces ns).negZF ↔
        ∃ n, ns[j]? = some n ∧ NegZTest n)) ∧
    List.Pairwise List.Disjoint
      [(find_all_directional_faces ns).xF, (find_all_directional_faces ns).negXF,
        (find_all_directional_faces ns).yF, (find_all_directional_faces ns).negYF,
        (find_all_directional_faces ns).zF,
        (find_all_directional_faces ns).negZF] ∧
    (∀ j n, ns[j]? = some n → Unclassified n →
      j ∉ (find_all_directional_faces ns).xF ∧
      j ∉ (find_all_directional_faces ns).negXF ∧
      j ∉ (find_all_directional_faces ns).yF ∧
      j ∉ (find_all_directional_faces ns).negYF ∧
      j ∉ (find_all_directional_faces ns).zF ∧
      j ∉ (find_all_directional_faces ns).negZF) := by
  have hc := classifyFrom_eq ns 0
  have hB1 : (find_all_directional_faces ns).xF = selectIdx PosXTest 0 ns := by
    rw [find_all_directional_faces, hc]
  have hB2 : (find_all_directional_faces ns).negXF = selectIdx ElifNegX 0 ns := by
    rw [find_all_directional_faces, hc]
  have hB3 : (find_all_directional_faces ns).yF = selectIdx ElifPosY 0 ns := by
    rw [find_all_directional_faces, hc]
  have hB4 : (find_all_directional_faces ns).negYF = selectIdx ElifNegY 0 ns := by
    rw [find_all_directional_faces, hc]
  have hB5 : (find_all_directional_faces ns).zF = selectIdx ElifPosZ 0 ns := by
    rw [find_all_directional_faces, hc]
  have hB6 : (find_all_directional_faces ns).negZF = selectIdx ElifNegZ 0 ns := by
    rw [find_all_directional_faces, hc]
  have m1 : ∀ j, j ∈ (find_all_directional_faces ns).xF ↔
      ∃ n, ns[j]? = some n ∧ PosXTest n := by
    intro j
    rw [hB1, mem_selectIdx_zero]
  have m2 : ∀ j, j ∈ (find_all_directional_faces ns).negXF ↔
      ∃ n, ns[j]? = some n ∧ NegXTest n := by
    intro j
    rw [hB2, mem_selectIdx_zero]
    exact exists_congr fun n => and_congr_right fun _ => elifNegX_iff n
  have m3 : ∀ j, j ∈ (find_all_directional_faces ns).yF ↔
      ∃ n, ns[j]? = some n ∧ PosYTest n := by
    intro j
    rw [hB3, mem_selectIdx_zero]
    exact exists_congr fun n => and_congr_right fun _ => elifPosY_iff n
  have m4 : ∀ j, j ∈ (find_all_directional_faces ns).negYF ↔
      ∃ n, ns[j]? = some n ∧ NegYTest n := by
    intro j
    rw [hB4, mem_selectIdx_zero]
    exact exists_congr fun n => and_congr_right fun _ => elifNegY_iff n
  have m5 : ∀ j, j ∈ (find_all_directional_faces ns).zF ↔
      ∃ n, ns[j]? = some n ∧ PosZTest n := by
    intro j
    rw [hB5, mem_selectIdx_zero]
    exact exists_congr fun n => and_congr_right fun _ => elifPosZ_iff n
  have m6 : ∀ j, j ∈ (find_all_directional_faces ns).negZF ↔
      ∃ n, ns[j]? = some n ∧ NegZTest n := by
    intro j
    rw [hB6, mem_selectIdx_zero]
    exact exists_congr fun n => and_congr_right fun _ => elifNegZ_iff n
  refine ⟨fun j => ⟨m1 j, m2 j, m3 j, m4 j, m5 j, m6 j⟩, ?_, ?_⟩
  · have d12 : List.Disjoint (find_all_directional_faces ns).xF
        (find_all_directional_faces ns).negXF := by
      rw [hB1, hB2]
      exact selectIdx_disjoint (fun n a b => b.1 a) ns
    have d13 : List.Disjoint (find_all_directional_faces ns).xF
        (find_all_directional_faces ns).yF := by
      rw [hB1, hB3]
      exact selectIdx_disjoint (fun n a b => b.1 a) ns
    have d14 : List.Disjoint (find_all_directional_faces ns).xF
        (find_all_directional_faces ns).negYF := by
      rw [hB1, hB4]
      exact selectIdx_disjoint (fun n a b => b.1 a) ns
    have d15 : List.Disjoint (find_all_directional_faces ns).xF
        (find_all_directional_faces ns).zF := by
      rw [hB1, hB5]
      exact selectIdx_disjoint (fun n a b => b.1 a) ns
    have d16 : List.Disjoint (find_all_directional_faces ns).xF
        (find_all_directional_faces ns).negZF := by
      rw [hB1, hB6]
      exact selectIdx_disjoint (fun n a b => b.1 a) ns
    have d23 : List.Disjoint (find_all_directional_faces ns).negXF
        (find_all_directional_faces ns).yF := by
      rw [hB2, hB3]
      exact selectIdx_disjoint (fun n a b => b.2.1 a.2) ns
    have d24 : List.Disjoint (find_all_directional_faces ns).negXF
        (find_all_directional_faces ns).negYF := by
      rw [hB2, hB4]
      exact selectIdx_disjoint (fun n a b => b.2.1 a.2) ns
    have d25 : List.Disjoint (find_all_directional_faces ns).negXF
        (find_all_directional_faces ns).zF := by
      rw [hB2, hB5]
      exact selectIdx_disjoint (fun n a b => b.2.1 a.2) ns
    have d26 : List.Disjoint (find_all_directional_faces ns).negXF
        (find_all_directional_faces ns).negZF := by
      rw [hB2, hB6]
      exact selectIdx_disjoint (fun n a b => b.2.1 a.2) ns
    have d34 : List.Disjoint (find_all_directional_faces ns).yF
        (find_all_directional_faces ns).negYF := by
      rw [hB3, hB4]
      exact selectIdx_disjoint (fun n a b => b.2.2.1 a.2.2) ns
    have d35 : List.Disjoint (find_all_directional_faces ns).yF
        (find_all_directional_faces ns).zF := by
      rw [hB3, hB5]
      exact selectIdx_disjoint (fun n a b => b.2.2.1 a.2.2) ns
    have d36 : List.Disjoint (find_all_directional_faces ns).yF
        (find_all_directional_faces ns).negZF := by
      rw [hB3, hB6]
      exact selectIdx_disjoint (fun n a b => b.2.2.1 a.2.2) ns
    have d45 : List.Disjoint (find_all_directional_faces ns).negYF
        (find_all_directional_faces ns).zF := by
      rw [hB4, hB5]
      exact selectIdx_disjoint (fun n a b => b.2.2.2.1 a.2.2.2) ns
    have d46 : List.Disjoint (find_all_directional_faces ns).negYF
        (find_all_directional_faces ns).negZF := by
      rw [hB4, hB6]
      exact selectIdx_disjoint (fun n a b => b.2.2.2.1 a.2.2.2) ns
    have d56 : List.Disjoint (find_all_directional_faces ns).zF
        (find_all_directional_faces ns).negZF := by
      rw [hB5, hB6]
      exact selectIdx_disjoint (fun n a b => b.2.2.2.2.1 a.2.2.2.2) ns
    refine List.Pairwise.cons ?_ (List.Pairwise.cons ?_ (List.Pairwise.cons ?_
      (List.Pairwise.cons ?_ (List.Pairwise.cons ?_ (List.Pairwise.cons
        (by simp) List.Pairwise.nil)))))
    · intro b hb
      simp only [List.mem_cons, List.not_mem_nil, or_false] at hb
      rcases hb with rfl | rfl | rfl | rfl | rfl
      exacts [d12, d13, d14, d15, d16]
    · intro b hb
      simp only [List.mem_cons, List.not_mem_nil, or_false] at hb
      rcases hb with rfl | rfl | rfl | rfl
      exacts [d23, d24, d25, d26]
    · intro b hb
      simp only [List.mem_cons, List.not_mem_nil, or_false] at hb
      rcases hb with rfl | rfl | rfl
      exacts [d34, d35, d36]
    · intro b hb
      simp only [List.mem_cons, List.not_mem_nil, or_false] at hb
      rcases hb with rfl | rfl
      exacts [d45, d46]
    · intro b hb
      simp only [List.mem_cons, List.not_mem_nil, or_false] at hb
      rcases hb with rfl
      exact d56
  · intro j n hj hu
    refine ⟨?_, ?_, ?_, ?_, ?_, ?_⟩
    · intro hmem
      obtain ⟨n', hn', ht⟩ := (m1 j).1 hmem
      rw [hj] at hn'
      cases hn'
      exact hu.1 ht
    · intro hmem
      obtain ⟨n', hn', ht⟩ := (m2 j).1 hmem
      rw [hj] at hn'
      cases hn'
      exact hu.2.1 ht
    · intro hmem
      obtain ⟨n', hn', ht⟩ := (m3 j).1 hmem
      rw [hj] at hn'
      cases hn'
      exact hu.2.2.1 ht
    · intro hmem
      obtain ⟨n', hn', ht⟩ := (m4 j).1 hmem
      rw [hj] at hn'
      cases hn'
      exact hu.2.2.2.1 ht
    · intro hmem
      obtain ⟨n', hn', ht⟩ := (m5 j).1 hmem
      rw [hj] at hn'
      cases hn'
      exact hu.2.2.2.2.1 ht
    · intro hmem
      obtain ⟨n', hn', ht⟩ := (m6 j).1 hmem
      rw [hj] at hn'
      cases hn'
      exact hu.2.2.2.2.2 ht

/-- Witness for C4: on two concrete normals, the `+X`-facing one lands
in the `+X` bucket and the diagonal one in no bucket. -/
theorem c4_face_classification_witness :
    0 ∈ (find_all_directional_faces
      [(⟨1, 0, 0⟩ : Vec3), ⟨1/2, 1/2, 1/2⟩]).xF ∧
    1 ∉ (find_all_directional_faces
      [(⟨1, 0, 0⟩ : Vec3), ⟨1/2, 1/2, 1/2⟩]).xF ∧
    1 ∉ (find_all_directional_faces
      [(⟨1, 0, 0⟩ : Vec3), ⟨1/2, 1/2, 1/2⟩]).negZF := by
  have h := c4_face_classification [(⟨1, 0, 0⟩ : Vec3), ⟨1/2, 1/2, 1/2⟩]
  have hu : Unclassified (⟨1/2, 1/2, 1/2⟩ : Vec3) := by
    unfold Unclassified PosXTest NegXTest PosYTest NegYTest PosZTest NegZTest
    norm_num
  have hp : PosXTest (⟨1, 0, 0⟩ : Vec3) := by
    unfold PosXTest
    norm_num
  have hmem := ((h.1 0).1).mpr ⟨⟨1, 0, 0⟩, rfl, hp⟩
  have hnon := h.2.2 1 ⟨1/2, 1/2, 1/2⟩ rfl hu
  exact ⟨hmem, hnon.1, hnon.2.2.2.2.2⟩

/-! ### Material-assignment lemmas -/

theorem unclassified_not_mem (ns : List Vec3) (j : Nat) (n : Vec3)
    (hj : ns[j]? = some n) (hu : Unclassified n) :
    j ∉ (find_all_directional_faces ns).xF ∧
    j ∉ (find_all_directional_faces ns).negXF ∧
    j ∉ (find_all_directional_faces ns).yF ∧
    j ∉ (find_all_directional_faces ns).negYF ∧
    j ∉ (find_all_directional_faces ns).zF ∧
    j ∉ (find_all_directional_faces ns).negZF := by
  have hc := classifyFrom_eq ns 0
  refine ⟨?_, ?_, ?_, ?_, ?_, ?_⟩ <;> intro hmem <;>
    rw [find_all_directional_faces, hc, mem_selectIdx_zero] at hmem <;>
    obtain ⟨n', hn', ht⟩ := hmem <;> rw [hj] at hn' <;> cases hn'
  · exact hu.1 ht
  · exact hu.2.1 ht.2
  · exact hu.2.2.1 ht.2.2
  · exact hu.2.2.2.1 ht.2.2.2
  · exact hu.2.2.2.2.1 ht.2.2.2.2
  · exact hu.2.2.2.2.2 ht.2.2.2.2.2

theorem assignDefaultFrom_getElem? (B : FaceBuckets) :
    ∀ (polys : List Polygon) (k i : Nat),
      (assignDefaultFrom B k polys)[i]? =
        (polys[i]?).map (fun p => ⟨p.normal, defaultAssignIdx B (k + i)⟩) := by
  intro polys
  induction polys with
  | nil => intro k i; simp [assignDefaultFrom]
  | cons p rest ih =>
    intro k i
    cases i with
    | zero => simp [assignDefaultFrom]
    | succ i' =>
      simp only [assignDefaultFrom, List.getElem?_cons_succ]
      rw [ih]
      have harith : k + 1 + i' = k + (i' + 1) := by omega
      rw [harith]

theorem assignMinestoneFrom_getElem? (B : FaceBuckets) (ix iy iz idef : Option Nat) :
    ∀ (polys : List Polygon) (k i : Nat),
      (assignMinestoneFrom B ix iy iz idef k polys)[i]? =
        (polys[i]?).map (fun p =>
          ⟨p.normal, minestoneAssignIdx B ix iy iz idef (k + i) p.matIndex⟩) := by
  intro polys
  induction polys with
  | nil => intro k i; simp [assignMinestoneFrom]
  | cons p rest ih =>
    intro k i
    cases i with
    | zero => simp [assignMinestoneFrom]
    | succ i' =>
      simp only [assignMinestoneFrom, List.getElem?_cons_succ]
      rw [ih]
      have harith : k + 1 + i' = k + (i' + 1) := by omega
      rw [harith]

theorem minestoneAssignIdx_unclassified (B : FaceBuckets) (ix iy iz : Option Nat)
    (i old : Nat) (h1 : i ∉ B.xF) (h2 : i ∉ B.negXF) (h3 : i ∉ B.yF)
    (h4 : i ∉ B.negYF) (h5 : i ∉ B.zF) (h6 : i ∉ B.negZF) :
    minestoneAssignIdx B ix iy iz none i old = old := by
  unfold minestoneAssignIdx
  rw [if_neg (not_or.mpr ⟨h1, h2⟩), if_neg (not_or.mpr ⟨h3, h4⟩),
    if_neg (not_or.mpr ⟨h5, h6⟩)]

theorem soilAssignIdx_of_main (B : FaceBuckets) (iz idef : Option Nat)
    (m : Nat) (i old : Nat) :
    soilAssignIdx B (some m) iz idef i old =
      some (if i ∈ B.zF then iz.getD m else m) := by
  unfold soilAssignIdx
  split_ifs with h1 h2
  · cases iz <;> simp
  · rfl
  · rfl

theorem assignSoilFrom_of_main (B : FaceBuckets) (iz idef : Option Nat) (m : Nat) :
    ∀ (polys : List Polygon) (k : Nat),
      assignSoilFrom B (some m) iz idef k polys =
        some (soilAssignPure B iz m k polys) := by
  intro polys
  induction polys with
  | nil => intro k; rfl
  | cons p rest ih =>
    intro k
    simp only [assignSoilFrom, soilAssignIdx_of_main, ih, Option.map_some]
    rfl

theorem soilAssignIdx_no_texture (B : FaceBuckets) (d : Nat) (i old : Nat) :
    soilAssignIdx B none none (some d) i old = some d := by
  unfold soilAssignIdx
  split_ifs <;> rfl

theorem assignSoilFrom_no_texture (B : FaceBuckets) (d : Nat) :
    ∀ (polys : List Polygon) (k : Nat),
      assignSoilFrom B none none (some d) k polys =
        some (polys.map (fun p => { p with matIndex := d })) := by
  intro polys
  induction polys with
  | nil => intro k; rfl
  | cons p rest ih =>
    intro k
    simp only [assignSoilFrom, soilAssignIdx_no_texture, ih, Option.map_some',
      List.map_cons]

theorem assignSoilFrom_keyerror (B : FaceBuckets) (iz : Option Nat) :
    ∀ (polys : List Polygon) (k i : Nat) (p : Polygon),
      polys[i]? = some p → (k + i) ∉ B.zF →
      assignSoilFrom B none iz none k polys = none := by
  intro polys
  induction polys with
  | nil => intro k i p hp _; simp at hp
  | cons q rest ih =>
    intro k i p hp hnot
    cases i with
    | zero =>
      have hk : k ∉ B.zF := by simpa using hnot
      have hidx : soilAssignIdx B none iz none k q.matIndex = none := by
        unfold soilAssignIdx
        rw [if_neg hk]
        split_ifs <;> rfl
      simp only [assignSoilFrom, hidx]
    | succ i' =>
      have hp' : rest[i']? = some p := by simpa using hp
      have hnot' : (k + 1) + i' ∉ B.zF := by
        have harith : k + 1 + i' = k + (i' + 1) := by omega
        rw [harith]
        exact hnot
      cases hidx : soilAssignIdx B none iz none k q.matIndex with
      | none => simp only [assignSoilFrom, hidx]
      | some v =>
        simp only [assignSoilFrom, hidx]
        rw [show assignSoilFrom B none iz none (k + 1) rest = none from
          ih (k + 1) i' p hp' hnot']
        rfl

theorem soilAssignPure_getElem? (B : FaceBuckets) (iz : Option Nat) (m : Nat) :
    ∀ (polys : List Polygon) (k i : Nat),
      (soilAssignPure B iz m k polys)[i]? =
        (polys[i]?).map (fun p =>
          ⟨p.normal, if k + i ∈ B.zF then iz.getD m else m⟩) := by
  intro polys
  induction polys with
  | nil => intro k i; simp [soilAssignPure]
  | cons p rest ih =>
    intro k i
    cases i with
    | zero => simp [soilAssignPure]
    | succ i' =>
      simp only [soilAssignPure, List.getElem?_cons_succ]
      rw [ih]
      have harith : k + 1 + i' = k + (i' + 1) := by omega
      rw [harith]

/-- In the default system every unclassified polygon is assigned a slot
holding the default material (slot 0 on the no-texture path, slot 3
otherwise). -/
theorem apply_default_unclassified (pid : Int) (getTex : Str → Option Str)
    (polys : List Polygon) (i : Nat) (p : Polygon)
    (hp : polys[i]? = some p) (hu : Unclassified p.normal) :
    ∃ q : Polygon,
      (apply_default_material_system pid getTex polys).2[i]? = some q ∧
      (apply_default_material_system pid getTex polys).1[q.matIndex]? =
        some (defaultMatName pid) := by
  by_cases hall : getTex (("x").data) = none ∧ getTex (("y").data) = none ∧
      getTex (("z").data) = none
  · refine ⟨⟨p.normal, 0⟩, ?_, ?_⟩
    · simp only [apply_default_material_system, if_pos hall]
      rw [List.getElem?_map, hp]
      rfl
    · simp only [apply_default_material_system, if_pos hall]
      rfl
  · have hnormal : (polys.map Polygon.normal)[i]? = some p.normal := by
      rw [List.getElem?_map, hp]
      rfl
    have hnm := unclassified_not_mem (polys.map Polygon.normal) i p.normal
      hnormal hu
    have hidx : defaultAssignIdx
        (find_all_directional_faces (polys.map Polygon.normal)) i = 3 := by
      unfold defaultAssignIdx
      rw [if_neg (not_or.mpr ⟨hnm.1, hnm.2.1⟩),
        if_neg (not_or.mpr ⟨hnm.2.2.1, hnm.2.2.2.1⟩),
        if_neg (not_or.mpr ⟨hnm.2.2.2.2.1, hnm.2.2.2.2.2⟩)]
    refine ⟨⟨p.normal, 3⟩, ?_, ?_⟩
    · simp only [apply_default_material_system, if_neg hall]
      rw [assignDefaultFrom_getElem?, hp]
      simp only [Nat.zero_add, hidx]
      rfl
    · simp only [apply_default_material_system, if_neg hall]
      rfl

/-- In the minestone system with no directional texture, every polygon
is assigned the sole default slot. -/
theorem apply_minestone_no_texture (pid : Int) (getTex : Str → Option Str)
    (polys : List Polygon)
    (h1 : getTex (("x").data) = none) (h2 : getTex (("y").data) = none)
    (h3 : getTex (("z").data) = none) :
    apply_minestone_material_system pid getTex polys =
      ([defaultMatName pid], polys.map (fun p => { p with matIndex := 0 })) := by
  simp only [apply_minestone_material_system]
  rw [if_pos ⟨h1, h2, h3⟩]

/-- In the minestone system with at least one directional texture, an
unclassified polygon keeps its previous material index untouched. -/
theorem apply_minestone_unclassified_untouched (pid : Int)
    (getTex : Str → Option Str) (polys : List Polygon) (i : Nat) (p : Polygon)
    (hne : ¬(getTex (("x").data) = none ∧ getTex (("y").data) = none ∧
      getTex (("z").data) = none))
    (hp : polys[i]? = some p) (hu : Unclassified p.normal) :
    (apply_minestone_material_system pid getTex polys).2[i]? = some p := by
  have hnormal : (polys.map Polygon.normal)[i]? = some p.normal := by
    rw [List.getElem?_map, hp]
    rfl
  have hnm := unclassified_not_mem (polys.map Polygon.normal) i p.normal
    hnormal hu
  have hfalse : ¬((if (getTex (("x").data)).isSome then some 0 else none) =
        (none : Option Nat) ∧
      (if (getTex (("y").data)).isSome then
        some (if (getTex (("x").data)).isSome then 1 else 0) else none) =
        (none : Option Nat) ∧
      (if (getTex (("z").data)).isSome then
        some ((if (getTex (("x").data)).isSome then 1 else 0) +
          (if (getTex (("y").data)).isSome then 1 else 0)) else none) =
        (none : Option Nat)) := by
    intro hcon
    apply hne
    obtain ⟨ha, hb, hc⟩ := hcon
    refine ⟨?_, ?_, ?_⟩
    · cases hx : getTex (("x").data) with
      | none => rfl
      | some v => rw [hx] at ha; simp at ha
    · cases hy : getTex (("y").data) with
      | none => rfl
      | some v => rw [hy] at hb; simp at hb
    · cases hz : getTex (("z").data) with
      | none => rfl
      | some v => rw [hz] at hc; simp at hc
  simp only [apply_minestone_material_system]
  rw [if_neg hne, if_neg hfalse, if_neg hfalse, assignMinestoneFrom_getElem?, hp]
  simp only [Nat.zero_add, Option.map_some']
  rw [minestoneAssignIdx_unclassified _ _ _ _ _ _ hnm.1 hnm.2.1 hnm.2.2.1
    hnm.2.2.2.1 hnm.2.2.2.2.1 hnm.2.2.2.2.2]

/-- In the soil system with a resolved main texture, an unclassified
polygon is assigned the main slot (index 0), not a dedicated fallback
slot. -/
theorem apply_soil_unclassified_main (pid : Int) (getTex : Str → Option Str)
    (polys : List Polygon) (i : Nat) (p : Polygon) (mainPath : Str)
    (hmain : getTex (("x").data) = some mainPath)
    (hp : polys[i]? = some p) (hu : Unclassified p.normal) :
    ∃ mats ps, apply_soil_material_system pid getTex polys = some (mats, ps) ∧
      ps[i]? = some ⟨p.normal, 0⟩ ∧
      mats[(0 : Nat)]? = some (faceMatName pid (("x").data)) := by
  have hnormal : (polys.map Polygon.normal)[i]? = some p.normal := by
    rw [List.getElem?_map, hp]
    rfl
  have hnm := unclassified_not_mem (polys.map Polygon.normal) i p.normal
    hnormal hu
  have himain : (if (getTex (("x").data)).isSome then some 0 else none) =
      (some 0 : Option Nat) := by
    rw [hmain]
    rfl
  simp only [apply_soil_material_system]
  rw [himain, assignSoilFrom_of_main]
  refine ⟨_, _, rfl, ?_, ?_⟩
  · rw [soilAssignPure_getElem?, hp]
    simp only [Nat.zero_add, Option.map_some']
    rw [if_neg hnm.2.2.2.2.1]
  · rw [hmain]
    simp

/-- In the soil system with neither the main nor the Z texture
resolved, every polygon is assigned the sole default slot. -/
theorem apply_soil_no_texture (pid : Int) (getTex : Str → Option Str)
    (polys : List Polygon)
    (hx : getTex (("x").data) = none) (hz : getTex (("z").data) = none) :
    apply_soil_material_system pid getTex polys =
      some ([defaultMatName pid], polys.map (fun p => { p with matIndex := 0 })) := by
  simp only [apply_soil_material_system]
  rw [hx, hz]
  simp [assignSoilFrom_no_texture]

/-- In the soil system with the Z texture resolved but no main
texture, the assignment loop hits `material_indices['default']` with no
such key at the first polygon outside the `+Z` bucket — in particular
at any unclassified polygon — so the whole material application fails
(KeyError). -/
theorem apply_soil_z_only_keyerror (pid : Int) (getTex : Str → Option Str)
    (polys : List Polygon) (i : Nat) (p : Polygon) (zPath : Str)
    (hx : getTex (("x").data) = none) (hz : getTex (("z").data) = some zPath)
    (hp : polys[i]? = some p) (hu : Unclassified p.normal) :
    apply_soil_material_system pid getTex polys = none := by
  have hnormal : (polys.map Polygon.normal)[i]? = some p.normal := by
    rw [List.getElem?_map, hp]
    rfl
  have hnm := unclassified_not_mem (polys.map Polygon.normal) i p.normal
    hnormal hu
  have key := assignSoilFrom_keyerror
    (find_all_directional_faces (polys.map Polygon.normal)) (some 0) polys 0 i p
    hp (by simpa using hnm.2.2.2.2.1)
  simp only [apply_soil_material_system]
  rw [hx, hz]
  simp [key]

/-! ### Claim theorems for C5 -/

/-- C5 (amended): in the default material system every polygon
classified into no directional bucket is assigned a slot holding the
fallback material; in the minestone system this holds only when no
directional texture resolves (every polygon then gets the sole default
slot) — when at least one directional texture resolves, unclassified
polygons are left with their previous material index; in the soil
system, when neither the main nor the Z texture resolves every polygon
gets the sole default slot, when the main texture resolves unclassified
polygons get the main slot rather than a dedicated fallback slot, and
when only the Z texture resolves an unclassified polygon makes the
assignment loop fail with a KeyError on the absent default slot, so no
assignment happens at all. -/
theorem c5_fallback_assignment :
    (∀ (pid : Int) (getTex : Str → Option Str) (polys : List Polygon)
      (i : Nat) (p : Polygon),
      polys[i]? = some p → Unclassified p.normal →
      ∃ q : Polygon,
        (apply_default_material_system pid getTex polys).2[i]? = some q ∧
        (apply_default_material_system pid getTex polys).1[q.matIndex]? =
          some (defaultMatName pid)) ∧
    (∀ (pid : Int) (getTex : Str → Option Str) (polys : List Polygon),
      getTex (("x").data) = none → getTex (("y").data) = none →
      getTex (("z").data) = none →
      apply_minestone_material_system pid getTex polys =
        ([defaultMatName pid], polys.map (fun p => { p with matIndex := 0 }))) ∧
    (∀ (pid : Int) (getTex : Str → Option Str) (polys : List Polygon)
      (i : Nat) (p : Polygon),
      ¬(getTex (("x").data) = none ∧ getTex (("y").data) = none ∧
        getTex (("z").data) = none) →
      polys[i]? = some p → Unclassified p.normal →
      (apply_minestone_material_system pid getTex polys).2[i]? = some p) ∧
    (∀ (pid : Int) (getTex : Str → Option Str) (polys : List Polygon),
      getTex (("x").data) = none → getTex (("z").data) = none →
      apply_soil_material_system pid getTex polys =
        some ([defaultMatName pid],
          polys.map (fun p => { p with matIndex := 0 }))) ∧
    (∀ (pid : Int) (getTex : Str → Option Str) (polys : List Polygon)
      (i : Nat) (p : Polygon) (mainPath : Str),
      getTex (("x").data) = some mainPath →
      polys[i]? = some p → Unclassified p.normal →
      ∃ mats ps, apply_soil_material_system pid getTex polys = some (mats, ps) ∧
        ps[i]? = some ⟨p.normal, 0⟩ ∧
        mats[(0 : Nat)]? = some (faceMatName pid (("x").data))) ∧
    (∀ (pid : Int) (getTex : Str → Option Str) (polys : List Polygon)
      (i : Nat) (p : Polygon) (zPath : Str),
      getTex (("x").data) = none → getTex (("z").data) = some zPath →
      polys[i]? = some p → Unclassified p.normal →
      apply_soil_material_system pid getTex polys = none) :=
  ⟨fun pid getTex polys i p hp hu =>
      apply_default_unclassified pid getTex polys i p hp hu,
    fun pid getTex polys h1 h2 h3 =>
      apply_minestone_no_texture pid getTex polys h1 h2 h3,
    fun pid getTex polys i p hne hp hu =>
      apply_minestone_unclassified_untouched pid getTex polys i p hne hp hu,
    fun pid getTex polys hx hz =>
      apply_soil_no_texture pid getTex polys hx hz,
    fun pid getTex polys i p mainPath hmain hp hu =>
      apply_soil_unclassified_main pid getTex polys i p mainPath hmain hp hu,
    fun pid getTex polys i p zPath hx hz hp hu =>
      apply_soil_z_only_keyerror pid getTex polys i p zPath hx hz hp hu⟩

/-- C5 counterexample: in the minestone system with an X texture
resolved, the single polygon is unclassified, yet it keeps its stale
material index 7 — the object's material list has exactly one slot
(index 0) and contains no default material, so the polygon is not
assigned the fallback slot. -/
theorem c5_counterexample :
    (apply_minestone_material_system 5
      (fun f => if f = ("x").data then some (("p.png").data) else none)
      [⟨⟨1/2, 1/2, 1/2⟩, 7⟩]).1 = [faceMatName 5 (("x").data)] ∧
    (apply_minestone_material_system 5
      (fun f => if f = ("x").data then some (("p.png").data) else none)
      [⟨⟨1/2, 1/2, 1/2⟩, 7⟩]).2[(0 : Nat)]? =
        some ⟨⟨1/2, 1/2, 1/2⟩, 7⟩ ∧
    Unclassified (⟨1/2, 1/2, 1/2⟩ : Vec3) ∧
    (apply_minestone_material_system 5
      (fun f => if f = ("x").data then some (("p.png").data) else none)
      [⟨⟨1/2, 1/2, 1/2⟩, 7⟩]).1[(7 : Nat)]? = none ∧
    defaultMatName 5 ∉ [faceMatName 5 (("x").data)] := by
  have hu : Unclassified (⟨1/2, 1/2, 1/2⟩ : Vec3) := by
    unfold Unclassified PosXTest NegXTest PosYTest NegYTest PosZTest NegZTest
    norm_num
  refine ⟨?_, ?_, hu, ?_, by decide⟩
  · simp only [apply_minestone_material_system]
    rw [if_neg (by decide)]
    decide
  · exact apply_minestone_unclassified_untouched 5 _ _ 0 _ (by decide) rfl hu
  · simp only [apply_minestone_material_system]
    rw [if_neg (by decide)]
    decide

/-- Witness for C5 at concrete inputs for the default-system,
minestone and soil clauses. -/
theorem c5_fallback_assignment_witness :
    (∃ q : Polygon,
      (apply_default_material_system 2 (fun _ => none)
        [⟨⟨1/2, 1/2, 1/2⟩, 9⟩]).2[(0 : Nat)]? = some q ∧
      (apply_default_material_system 2 (fun _ => none)
        [⟨⟨1/2, 1/2, 1/2⟩, 9⟩]).1[q.matIndex]? = some (defaultMatName 2)) ∧
    apply_minestone_material_system 2 (fun _ => none) [] =
      ([defaultMatName 2], []) ∧
    apply_soil_material_system 2 (fun _ => none) [] =
      some ([defaultMatName 2], []) ∧
    apply_soil_material_system 3
      (fun f => if f = ("z").data then some (("q.png").data) else none)
      [⟨⟨1/2, 1/2, 1/2⟩, 4⟩] = none := by
  have hu : Unclassified (⟨1/2, 1/2, 1/2⟩ : Vec3) := by
    unfold Unclassified PosXTest NegXTest PosYTest NegYTest PosZTest NegZTest
    norm_num
  exact ⟨c5_fallback_assignment.1 2 (fun _ => none) [⟨⟨1/2, 1/2, 1/2⟩, 9⟩] 0
      ⟨⟨1/2, 1/2, 1/2⟩, 9⟩ rfl hu,
    c5_fallback_assignment.2.1 2 (fun _ => none) [] rfl rfl rfl,
    c5_fallback_assignment.2.2.2.1 2 (fun _ => none) [] rfl rfl,
    c5_fallback_assignment.2.2.2.2.2 3
      (fun f => if f = ("z").data then some (("q.png").data) else none)
      [⟨⟨1/2, 1/2, 1/2⟩, 4⟩] 0 ⟨⟨1/2, 1/2, 1/2⟩, 4⟩ (("q.png").data)
      (by decide) (by decide) rfl hu⟩

/-! ### Claim theorems for the template/placement caches -/

/-- C1: when a template is already cached for a position id,
`create_template_for_position_id` returns that very template and
leaves the whole state — filesystem, objects, load count and all
caches — unchanged (in particular no asset is loaded); and when a
block named for `(position_id, x, y, z)` already exists,
`create_block_from_template` returns that existing object's name and
creates nothing. -/
theorem c1_cache_idempotence :
    (∀ (s : SysState) (pid : Int) (tex mod : Str) (t : Template),
      alLookup s.templates pid = some t →
      create_template_for_position_id s pid tex mod = (some t, s)) ∧
    (∀ (s : SysState) (pid x y z : Int) (base : ℚ) (dir : Str) (uc : Bool),
      blockName pid x y z ∈ s.objects →
      create_block_from_template s pid x y z base dir uc =
        (some (blockName pid x y z), s)) := by
  constructor
  · intro s pid tex mod t h
    simp only [create_template_for_position_id]
    rw [h]
  · intro s pid x y z base dir uc h
    simp only [create_block_from_template]
    rw [if_pos h]

/-- Witness for C1 at the concrete state `s1w`. -/
theorem c1_cache_idempotence_witness :
    create_template_for_position_id s1w 2 (("t").data) (("m").data) =
      (some ⟨("T").data, [("c").data]⟩, s1w) ∧
    create_block_from_template s1w 1 0 0 0 1 (("EAST").data) false =
      (some (blockName 1 0 0 0), s1w) := by
  constructor
  · exact c1_cache_idempotence.1 s1w 2 (("t").data) (("m").data)
      ⟨("T").data, [("c").data]⟩ rfl
  · exact c1_cache_idempotence.2 s1w 1 0 0 0 1 (("EAST").data) false
      (List.mem_singleton.mpr rfl)

/-- C6 (amended): when no template is cached for the id and neither a
main model nor a submodel can be built, the build returns no template
and caches none — the template cache, mapping cache, object set, and
load count are unchanged — but the freshly resolved configuration *is*
stored in the configuration cache (the resolver runs and stores its
result before the build is attempted, src line 2220). -/
theorem c6_failed_build_caches_config_only (s : SysState) (pid : Int)
    (tex mod : Str)
    (hnot : alLookup s.templates pid = none)
    (hm : has_main_model (resolvedConfigOf s pid tex mod) s.fs = false)
    (hs : has_submodel (resolvedConfigOf s pid tex mod) s.fs = false) :
    create_template_for_position_id s pid tex mod =
      (none, { s with
        modelConfigs :=
          alInsert s.modelConfigs pid (resolvedConfigOf s pid tex mod) }) := by
  have hm' : has_main_model (mkModelConfig pid
      (match s.mappingTable with | some m => alLookup m pid | none => none)
      tex mod s.fs) s.fs = false := hm
  have hs' : has_submodel (mkModelConfig pid
      (match s.mappingTable with | some m => alLookup m pid | none => none)
      tex mod s.fs) s.fs = false := hs
  simp only [create_template_for_position_id]
  rw [hnot]
  simp only [resolvedConfigOf]
  simp [hm', hs']

/-- C6 counterexample: a failed build (no main model, no submodel)
caches no template and leaves the mapping cache alone, but it *does*
add an entry to the model-configuration cache, so the configuration
caches are not left unchanged as claimed. -/
theorem c6_counterexample :
    (create_template_for_position_id s6fail 0 [] []).1 = none ∧
    (create_template_for_position_id s6fail 0 [] []).2.templates = [] ∧
    (create_template_for_position_id s6fail 0 [] []).2.mappingTable = none ∧
    (create_template_for_position_id s6fail 0 [] []).2.loadCount = 0 ∧
    (create_template_for_position_id s6fail 0 [] []).2.modelConfigs =
      [(0, mkModelConfig 0 none [] [] [])] ∧
    s6fail.modelConfigs = [] :=
  ⟨rfl, rfl, rfl, rfl, rfl, rfl⟩

/-- Witness for C6 at the empty state. -/
theorem c6_failed_build_witness :
    create_template_for_position_id s6fail 0 [] [] =
      (none, { s6fail with
        modelConfigs :=
          alInsert s6fail.modelConfigs 0 (resolvedConfigOf s6fail 0 [] []) }) := by
  exact c6_failed_build_caches_config_only s6fail 0 [] [] rfl rfl rfl

/-! ### Claim theorem for the placement rotation -/

/-- C7: the direction-to-angle mapping is 0, π/2, π, 3π/2 for EAST,
SOUTH, WEST, NORTH as claimed, but the angle is written into the *Y*
component of the placed container's euler triple (src line 2455):
the X and Z euler components are always 0, so for any direction other
than EAST (e.g. SOUTH, whose angle π/2 is nonzero) the applied
rotation is about the Y axis, not about the vertical axis — the
vertical axis in this addon is Z, the axis the compass direction
vectors are orthogonal to and the axis used for base/center
positioning. -/
theorem c7_rotation_applied_on_y_axis :
    get_rotation_for_direction (("EAST").data) = 0 ∧
    get_rotation_for_direction (("SOUTH").data) = Real.pi / 2 ∧
    get_rotation_for_direction (("WEST").data) = Real.pi ∧
    get_rotation_for_direction (("NORTH").data) = 3 * Real.pi / 2 ∧
    blockRotationEuler (("SOUTH").data) = (0, Real.pi / 2, 0) ∧
    (∀ d : Str, (blockRotationEuler d).1 = 0 ∧ (blockRotationEuler d).2.2 = 0) ∧
    Real.pi / 2 ≠ 0 ∧
    (∀ d : Str, (get_direction_vector d).2.2 = 0) := by
  refine ⟨rfl, rfl, rfl, rfl, rfl, fun d => ⟨rfl, rfl⟩, ?_, ?_⟩
  · have hpi := Real.pi_pos
    intro hzero
    rw [div_eq_zero_iff] at hzero
    rcases hzero with h | h
    · linarith
    · norm_num at h
  · intro d
    unfold get_direction_vector
    split_ifs <;> rfl

end MiniWorld
